/-
Verification of the majordomo-concierge pipeline: a shallow embedding of the
router, the specialist agents (Oracle, Scribe, Sentinel), the memory stores
(home-state cache, journal store) and the tool registry, together with
theorems settling the behavioural claims about them.

Conventions of the embedding:
* Python strings are modelled as Lean `String`; the Python operations
  `str.lower`, `str.strip` and the substring test `needle in hay` are
  modelled character-wise (`pyLower`, `pyStrip`, `pyContains`).  The model of
  `str.lower` is exact on ASCII text (the phrase tables and all inputs used
  here are ASCII).
* External effects (search tools, the approval tool, the calendar tool, the
  language model) are passed in explicitly as function parameters; each
  modelled entry point additionally returns a trace of the tool invocations
  it performed, so that "tool X is invoked exactly once" is a statement about
  the returned trace.
* The SQLite journal table is modelled as a list of rows; `uuid.uuid4()` and
  `datetime.utcnow()` are modelled as explicit arguments of `save_entry`
  (they are the only nondeterministic inputs of the store).
-/
import Mathlib

set_option maxRecDepth 10000

/-! ## Python string primitives -/

/-- Model of Python `str.lower` (exact on ASCII; `Char.toLower` lowers the
ASCII uppercase range). -/
def pyLower (s : String) : String :=
  ⟨s.toList.map Char.toLower⟩

/-- The ASCII whitespace characters stripped by Python `str.strip()`. -/
def pyIsSpace (c : Char) : Bool :=
  c == ' ' || c == '\t' || c == '\n' || c == '\r' || c == '\x0b' || c == '\x0c'

/-- Strip from the right: drop trailing characters satisfying `p`. -/
def stripRightList (p : Char → Bool) (l : List Char) : List Char :=
  (l.reverse.dropWhile p).reverse

/-- Model of Python `str.strip()` on the character list level. -/
def pyStripList (l : List Char) : List Char :=
  stripRightList pyIsSpace (l.dropWhile pyIsSpace)

/-- Model of Python `str.strip()`. -/
def pyStrip (s : String) : String :=
  ⟨pyStripList s.toList⟩

/-- `startsWithL n l`: `n` is a prefix of `l` (character lists). -/
def startsWithL : List Char → List Char → Bool
  | [], _ => true
  | _ :: _, [] => false
  | a :: as, b :: bs => a == b && startsWithL as bs

/-- `hasSub n l`: `n` occurs as a contiguous substring of `l`.
Models Python's `n in l` on strings. -/
def hasSub : List Char → List Char → Bool
  | n, [] => n.isEmpty
  | n, c :: rest => startsWithL n (c :: rest) || hasSub n rest

/-- Python `needle in hay` for strings. -/
def pyContains (needle hay : String) : Bool :=
  hasSub needle.toList hay.toList

/-! ### Substring lemmas -/

theorem startsWithL_append (n t : List Char) : startsWithL n (n ++ t) = true := by
  induction n with
  | nil => rfl
  | cons a as ih => simp [startsWithL, ih]

theorem startsWithL_exists {n l : List Char} (h : startsWithL n l = true) :
    ∃ t, l = n ++ t := by
  induction n generalizing l with
  | nil => exact ⟨l, rfl⟩
  | cons a as ih =>
    cases l with
    | nil => simp [startsWithL] at h
    | cons b bs =>
      simp only [startsWithL, Bool.and_eq_true, beq_iff_eq] at h
      obtain ⟨rfl, h2⟩ := h
      obtain ⟨t, rfl⟩ := ih h2
      exact ⟨t, rfl⟩

theorem hasSub_nil_left (l : List Char) : hasSub [] l = true := by
  cases l <;> simp [hasSub, startsWithL]

theorem hasSub_of_startsWithL {n l : List Char} (h : startsWithL n l = true) :
    hasSub n l = true := by
  cases l with
  | nil => cases n with
    | nil => rfl
    | cons a as => simp [startsWithL] at h
  | cons c rest => simp [hasSub, h]

theorem hasSub_iff (n l : List Char) :
    hasSub n l = true ↔ ∃ s t, l = s ++ n ++ t := by
  constructor
  · intro h
    induction l with
    | nil =>
      simp [hasSub, List.isEmpty_iff] at h
      exact ⟨[], [], by simp [h]⟩
    | cons c rest ih =>
      simp only [hasSub, Bool.or_eq_true] at h
      rcases h with h | h
      · obtain ⟨t, ht⟩ := startsWithL_exists h
        exact ⟨[], t, by simpa using ht⟩
      · obtain ⟨s, t, hst⟩ := ih h
        exact ⟨c :: s, t, by simp [hst]⟩
  · rintro ⟨s, t, rfl⟩
    induction s with
    | nil =>
      simp only [List.nil_append]
      exact hasSub_of_startsWithL (startsWithL_append n t)
    | cons c cs ih =>
      simp only [hasSub, Bool.or_eq_true]
      exact Or.inr (by simpa using ih)

theorem hasSub_dropWhile {p : Char → Bool} {n l : List Char}
    (hn : ∀ c ∈ n, p c = false) (h : hasSub n l = true) :
    hasSub n (l.dropWhile p) = true := by
  induction l with
  | nil => exact h
  | cons c rest ih =>
    by_cases hc : p c
    · rw [List.dropWhile_cons_of_pos hc]
      apply ih
      simp only [hasSub, Bool.or_eq_true] at h
      rcases h with h | h
      · cases n with
        | nil => exact hasSub_nil_left _
        | cons a as =>
          simp only [startsWithL, Bool.and_eq_true, beq_iff_eq] at h
          have : p a = false := hn a (by simp)
          rw [h.1] at this
          rw [this] at hc
          exact absurd hc (by simp)
      · exact h
    · rw [List.dropWhile_cons_of_neg hc]
      exact h

theorem hasSub_reverse {n l : List Char} (h : hasSub n l = true) :
    hasSub n.reverse l.reverse = true := by
  rw [hasSub_iff] at h ⊢
  obtain ⟨s, t, rfl⟩ := h
  exact ⟨t.reverse, s.reverse, by simp⟩

theorem hasSub_pyStripList {n l : List Char}
    (hn : ∀ c ∈ n, pyIsSpace c = false) (h : hasSub n l = true) :
    hasSub n (pyStripList l) = true := by
  unfold pyStripList stripRightList
  have h1 := hasSub_dropWhile hn h
  have h2 := hasSub_reverse h1
  have h3 := hasSub_dropWhile (p := pyIsSpace) (by intro c hc; exact hn c (by simpa using hc)) h2
  have h4 := hasSub_reverse h3
  simpa using h4

/-- Containment in a lowered string survives `strip` provided the needle has
no whitespace character. -/
theorem pyContains_pyStrip {needle s : String}
    (hn : ∀ c ∈ needle.toList, pyIsSpace c = false)
    (h : pyContains needle s = true) :
    pyContains needle (pyStrip s) = true := by
  unfold pyContains pyStrip at *
  exact hasSub_pyStripList hn h

/-! ## Router (`src/orchestration/router.py`) -/

namespace Router

inductive FlowName where
  | GENERAL
  | KNOWLEDGE
  | JOURNAL
  | HOME
deriving DecidableEq, Repr

structure RoutingDecision where
  flow : FlowName
  reason : String
deriving DecidableEq, Repr

def scheduling_phrases : List String :=
  [ "add to my calendar"
  , "add this to my calendar"
  , "put this in my calendar"
  , "put it in my calendar"
  , "schedule"
  , "schedule in"
  , "schedule this"
  , "book in"
  , "set a reminder"
  , "remind me"
  , "create an event"
  , "create event"
  ]

def journal_phrases : List String :=
  [ "journal"
  , "diary"
  , "note to self"
  , "log this"
  , "write this down"
  , "record this"
  , "remember that"
  ]

def home_keywords : List String :=
  [ "lights"
  , "light on"
  , "light off"
  , "thermostat"
  , "heating"
  , "temperature"
  , "aircon"
  , "smart plug"
  , "lock the door"
  , "unlock the door"
  , "front door"
  , "garage door"
  ]

def knowledge_triggers : List String :=
  [ "who "
  , "what "
  , "when "
  , "where "
  , "why "
  , "how "
  , "latest"
  , "news"
  , "update"
  , "price"
  , "score"
  , "result"
  , "weather"
  , "population"
  , "definition"
  , "meaning"
  , "history"
  , "information"
  , "info"
  ]

/-- The verbs of the calendar check in `route`. -/
def calendar_verbs : List String := ["add", "put", "schedule", "create", "remind"]

/-- `route` from `src/orchestration/router.py`: ordered, first-match-wins
classification of a user message into a flow. -/
def route (user_message : String) : RoutingDecision :=
  let text := pyStrip (pyLower user_message)
  if pyContains "calendar" text && calendar_verbs.any (fun verb => pyContains verb text) then
    ⟨FlowName.JOURNAL, "calendar + scheduling verb → journal/scheduling flow"⟩
  else if scheduling_phrases.any (fun phrase => pyContains phrase text) then
    ⟨FlowName.JOURNAL, "scheduling/reminder intent → journal flow"⟩
  else if journal_phrases.any (fun phrase => pyContains phrase text) then
    ⟨FlowName.JOURNAL, "journal/diary intent → journal flow"⟩
  else if home_keywords.any (fun kw => pyContains kw text) then
    ⟨FlowName.HOME, "home/IoT-related intent → sentinel flow"⟩
  else if pyContains "?" text || knowledge_triggers.any (fun kw => pyContains kw text) then
    ⟨FlowName.KNOWLEDGE, "question/information intent → oracle flow"⟩
  else
    ⟨FlowName.GENERAL, "default → general conversation flow"⟩

end Router

/-! ## Claims about the router -/

/-- C1: every message whose lowercased text contains "calendar" and at least
one of the verbs "add", "put", "schedule", "create", "remind" is routed to
the journal flow and never to the knowledge flow: the calendar+verb check is
the first branch of `route`, ahead of the knowledge-trigger branch. -/
theorem claim_C1_calendar_verb_routes_journal (msg : String)
    (hcal : pyContains "calendar" (pyLower msg) = true)
    (hverb : ∃ v ∈ Router.calendar_verbs, pyContains v (pyLower msg) = true) :
    (Router.route msg).flow = Router.FlowName.JOURNAL ∧
    (Router.route msg).flow ≠ Router.FlowName.KNOWLEDGE := by
  obtain ⟨v, hv, hvc⟩ := hverb
  have h1 : pyContains "calendar" (pyStrip (pyLower msg)) = true :=
    pyContains_pyStrip (by decide) hcal
  have hnsv : ∀ c ∈ v.toList, pyIsSpace c = false := by
    fin_cases hv <;> decide
  have h2 : pyContains v (pyStrip (pyLower msg)) = true := pyContains_pyStrip hnsv hvc
  have hany : Router.calendar_verbs.any
      (fun verb => pyContains verb (pyStrip (pyLower msg))) = true :=
    List.any_eq_true.mpr ⟨v, hv, h2⟩
  have hroute : Router.route msg
      = ⟨Router.FlowName.JOURNAL, "calendar + scheduling verb → journal/scheduling flow"⟩ := by
    unfold Router.route
    simp [h1, hany]
  rw [hroute]
  exact ⟨rfl, by decide⟩

/-- Witness for C1 at the spec's own example message. -/
theorem claim_C1_witness :
    pyContains "calendar" (pyLower "add this to my calendar") = true ∧
    (Router.route "add this to my calendar").flow = Router.FlowName.JOURNAL ∧
    (Router.route "add this to my calendar").flow ≠ Router.FlowName.KNOWLEDGE := by
  refine ⟨by decide, ?_⟩
  exact claim_C1_calendar_verb_routes_journal "add this to my calendar" (by decide)
    ⟨"add", by decide, by decide⟩

/-- C6: evaluation of `route` at the claim's two inputs.  The first message is
routed to the journal flow (it contains the phrase "diary"), but the second is
routed to the GENERAL fallback flow: `route` has no "log:"/"note:" prefix
rule, contradicting the repository's own `test_route_diary_capture`, which
asserts both messages are diary capture. -/
theorem claim_C6_route_eval :
    (Router.route "Log: this is a diary entry").flow = Router.FlowName.JOURNAL ∧
    (Router.route "note: remember to breathe").flow = Router.FlowName.GENERAL ∧
    (Router.route "note: remember to breathe").flow ≠ Router.FlowName.JOURNAL := by
  decide

/-- C7: evaluation of `route` at the claim's two inputs.  Both are routed to
the KNOWLEDGE flow (the first contains "?" and "what ", the second contains
the trigger "how " inside the word "show"), not to the journal/reflection
flow; the repository's own `test_route_diary_reflection` asserts the
diary-reflection flow for both. -/
theorem claim_C7_route_eval :
    (Router.route "What have I been saying about work lately?").flow
      = Router.FlowName.KNOWLEDGE ∧
    (Router.route "Show me patterns in my notes").flow = Router.FlowName.KNOWLEDGE ∧
    (Router.route "What have I been saying about work lately?").flow
      ≠ Router.FlowName.JOURNAL ∧
    (Router.route "Show me patterns in my notes").flow ≠ Router.FlowName.JOURNAL := by
  decide

/-! ## Python dictionaries as association lists

A Python `dict` with string keys is modelled as an association list with
pairwise-distinct keys; `aget` is `d.get(k)`, `aset` is `d[k] = v`
(replace-in-place or append, preserving insertion order, exactly like a
Python dict), and `PyDict.update` is `d.update(u)`. -/

def aget {α : Type} : List (String × α) → String → Option α
  | [], _ => none
  | (k', v) :: rest, k => if k' = k then some v else aget rest k

def aset {α : Type} : List (String × α) → String → α → List (String × α)
  | [], k, v => [(k, v)]
  | (k', v') :: rest, k, v => if k' = k then (k, v) :: rest else (k', v') :: aset rest k v

namespace PyDict

/-- `d.update(u)` of Python dicts. -/
def update {α : Type} (d u : List (String × α)) : List (String × α) :=
  u.foldl (fun acc kv => aset acc kv.1 kv.2) d

theorem aget_aset_self {α : Type} (l : List (String × α)) (k : String) (v : α) :
    aget (aset l k v) k = some v := by
  induction l with
  | nil => simp [aget, aset]
  | cons hd tl ih =>
    by_cases h : hd.1 = k
    · simp [aset, aget, h]
    · simp only [aset]
      rw [if_neg (by exact h)]
      simpa [aget, h] using ih

theorem aget_aset_ne {α : Type} (l : List (String × α)) {k k' : String} (v : α)
    (h : k' ≠ k) : aget (aset l k' v) k = aget l k := by
  induction l with
  | nil => simp [aget, aset, h]
  | cons hd tl ih =>
    by_cases h1 : hd.1 = k'
    · simp [aset, aget, h1, h]
    · simp only [aset]
      rw [if_neg (by exact h1)]
      simp only [aget]
      by_cases h2 : hd.1 = k
      · simp [h2]
      · simp [h2, ih]

theorem aget_update_not_mem {α : Type} (d : List (String × α))
    {u : List (String × α)} {k : String} (h : k ∉ u.map Prod.fst) :
    aget (update d u) k = aget d k := by
  induction u generalizing d with
  | nil => rfl
  | cons kv u' ih =>
    simp only [List.map_cons, List.mem_cons, not_or] at h
    show aget (update (aset d kv.1 kv.2) u') k = aget d k
    rw [ih (aset d kv.1 kv.2) h.2]
    exact aget_aset_ne d kv.2 (fun he => h.1 he.symm)

theorem aget_update_mem {α : Type} (d : List (String × α))
    {u : List (String × α)} {k : String} {v : α}
    (hnd : (u.map Prod.fst).Nodup) (h : (k, v) ∈ u) :
    aget (update d u) k = some v := by
  induction u generalizing d with
  | nil => simp at h
  | cons kv u' ih =>
    simp only [List.map_cons, List.nodup_cons] at hnd
    rcases List.mem_cons.mp h with h1 | h1
    · show aget (update (aset d kv.1 kv.2) u') k = some v
      have hk : k ∉ u'.map Prod.fst := by
        have hke : kv.1 = k := by rw [← h1]
        rw [← hke]
        exact hnd.1
      rw [aget_update_not_mem _ hk, ← h1]
      exact aget_aset_self d k v
    · exact ih (aset d kv.1 kv.2) hnd.2 h1

end PyDict

/-! ## Home-state cache (`src/memory/state_cache.py`) -/

namespace StateCache

/-- A per-user home state: a Python dict such as
`{"lights": "on", "doors_locked": "locked"}`. -/
abbrev HomeState := List (String × String)

/-- The default all-"unknown" state returned for users with no stored state. -/
def default_home_state : HomeState :=
  [("lights", "unknown"), ("doors_locked", "unknown")]

/-- `get_home_state` from `src/memory/state_cache.py`; the module-level
`_STATE` dict is passed explicitly. -/
def get_home_state (state : List (String × HomeState)) (user_id : String) : HomeState :=
  (aget state user_id).getD default_home_state

/-- `set_home_state` from `src/memory/state_cache.py`: merge the update into
the current state (`current.update(new_state)`) and store it back. -/
def set_home_state (state : List (String × HomeState)) (user_id : String)
    (new_state : HomeState) : List (String × HomeState) :=
  aset state user_id (PyDict.update (get_home_state state user_id) new_state)

/-- Reading back a freshly written user gives the merged dictionary. -/
theorem get_set_home_state (state : List (String × HomeState)) (user_id : String)
    (new_state : HomeState) :
    get_home_state (set_home_state state user_id new_state) user_id
      = PyDict.update (get_home_state state user_id) new_state := by
  unfold get_home_state set_home_state
  rw [PyDict.aget_aset_self]
  rfl

end StateCache

/-- C4: `set_home_state` performs a partial merge: after
`set_home_state(user_id, U)` the stored state maps every key of `U` to `U`'s
value and every key not in `U` to its prior value; and `get_home_state` of a
user with no stored state returns the all-"unknown" default.  (`U` is a
Python dict, hence its keys are pairwise distinct.) -/
theorem claim_C4_home_state_partial_merge
    (st : List (String × StateCache.HomeState)) (uid : String)
    (U : StateCache.HomeState) (k : String) :
    ((U.map Prod.fst).Nodup → ∀ v, (k, v) ∈ U →
      aget (StateCache.get_home_state (StateCache.set_home_state st uid U) uid) k = some v)
    ∧ (k ∉ U.map Prod.fst →
      aget (StateCache.get_home_state (StateCache.set_home_state st uid U) uid) k
        = aget (StateCache.get_home_state st uid) k)
    ∧ (aget st uid = none →
      StateCache.get_home_state st uid = StateCache.default_home_state) := by
  refine ⟨?_, ?_, ?_⟩
  · intro hnd v hv
    rw [StateCache.get_set_home_state]
    exact PyDict.aget_update_mem _ hnd hv
  · intro hk
    rw [StateCache.get_set_home_state]
    exact PyDict.aget_update_not_mem _ hk
  · intro h
    unfold StateCache.get_home_state
    rw [h]
    rfl

/-- Witness for C4 at the spec's example: applying `{"lights": "off"}` to
`{"lights": "on", "doors_locked": "locked"}`. -/
theorem claim_C4_witness :
    aget (StateCache.get_home_state
      (StateCache.set_home_state [("u", [("lights", "on"), ("doors_locked", "locked")])]
        "u" [("lights", "off")]) "u") "lights" = some "off"
    ∧ aget (StateCache.get_home_state
      (StateCache.set_home_state [("u", [("lights", "on"), ("doors_locked", "locked")])]
        "u" [("lights", "off")]) "u") "doors_locked" = some "locked"
    ∧ StateCache.get_home_state [] "u" = StateCache.default_home_state :=
  ⟨(claim_C4_home_state_partial_merge [("u", [("lights", "on"), ("doors_locked", "locked")])]
      "u" [("lights", "off")] "lights").1 (by decide) "off" (by decide),
   (claim_C4_home_state_partial_merge [("u", [("lights", "on"), ("doors_locked", "locked")])]
      "u" [("lights", "off")] "doors_locked").2.1 (by decide),
   (claim_C4_home_state_partial_merge [] "u" [("lights", "off")] "k").2.2 rfl⟩

/-! ## Sentinel (`src/agents/sentinel.py`)

The shipped `TOOL_REGISTRY` registers `human.approve` (a parameter here,
since a real deployment may wire it to a UI), and `smarthome.set_state` /
`smarthome.get_state`, which are the simulated Home Assistant tools of
`src/tools/mcp/home_assistant_mcp.py`: they merge into / read the state
cache and never raise, so the `except` fallbacks of `handle` are dead under
the shipped tools and the cache is threaded explicitly. -/

/-- Python `repr` of a `bool`, as interpolated by an f-string. -/
def pyBoolRepr (b : Bool) : String := if b then "True" else "False"

/-- Python `repr`/f-string rendering of a `dict` of strings, e.g.
`{'lights': 'on', 'doors_locked': 'locked'}`. -/
def pyDictReprStr (d : List (String × String)) : String :=
  "\x7b" ++ String.intercalate ", "
    (d.map (fun kv => "'" ++ kv.1 ++ "': '" ++ kv.2 ++ "'")) ++ "\x7d"

namespace Sentinel

/-- `SENTINEL_BASE` from `src/prompts/system_instructions.py` (stripped). -/
def SENTINEL_BASE : String :=
  "You are Sentinel, a cautious smart home assistant.\nYou:\n- Only act on devices and actions from an allowlist.\n- Treat door locks, alarms, and security-related actions as sensitive.\n- Require explicit user approval for sensitive actions.\nAlways summarise what you did and what the current home state is."

/-- The "very simple parsing" block at the top of `SentinelAgent.handle`:
builds the partial-update dict from the lowered message. -/
def parse_new_state (lower : String) : StateCache.HomeState :=
  let ns0 : StateCache.HomeState := []
  let ns1 :=
    if pyContains "lights" lower && pyContains "off" lower then aset ns0 "lights" "off"
    else if pyContains "lights" lower && pyContains "on" lower then aset ns0 "lights" "on"
    else ns0
  let ns2 :=
    if pyContains "lock" lower && pyContains "door" lower then
      aset ns1 "doors_locked" "locked"
    else ns1
  if pyContains "unlock" lower && pyContains "door" lower then
    aset ns2 "doors_locked" "unlocked"
  else ns2

/-- The description string passed to the `human.approve` tool. -/
def approval_description (user_id : String) (new_state : StateCache.HomeState) : String :=
  "Update smart home state for user " ++ user_id ++ " with " ++ pyDictReprStr new_state

structure Result where
  state : StateCache.HomeState
  approved : Bool
  narrative : String

/-- Tool invocations performed by one call of `handle`. -/
structure Trace where
  approvals : List String
  set_calls : List (String × StateCache.HomeState)
  get_calls : List String
deriving DecidableEq

/-- `SentinelAgent.handle`: returns the result dict, the state cache after
the call, and the trace of tool invocations. -/
def handle (approve : String → Bool) (llm : String → String)
    (cache : List (String × StateCache.HomeState))
    (user_id user_message ctx_text : String) :
    Result × List (String × StateCache.HomeState) × Trace :=
  let lower := pyLower user_message
  let new_state := parse_new_state lower
  let approvedCall :=
    if new_state.isEmpty then (true, ([] : List String))
    else
      let desc := approval_description user_id new_state
      (approve desc, [desc])
  let approved := approvedCall.1
  let stateStep :=
    if !new_state.isEmpty && approved then
      let cache' := StateCache.set_home_state cache user_id new_state
      (StateCache.get_home_state cache' user_id, cache',
        [(user_id, new_state)], ([] : List String))
    else
      (StateCache.get_home_state cache user_id, cache, [], [user_id])
  let state := stateStep.1
  let prompt := pyStrip ("\n" ++ SENTINEL_BASE ++ "\n\nPrevious context:\n" ++ ctx_text
    ++ "\n\nUser request:\n" ++ user_message ++ "\n\nAction approval: "
    ++ pyBoolRepr approved ++ "\nResulting (simulated) home state:\n"
    ++ pyDictReprStr state
    ++ "\n\nExplain briefly what you did (if anything) and what the state is now.\n")
  let narrative := llm prompt
  (⟨state, approved, narrative⟩, stateStep.2.1, ⟨approvedCall.2, stateStep.2.2.1, stateStep.2.2.2⟩)

end Sentinel

/-- C3: a message implying lights-on (contains "lights" and "on", no "off")
and door-lock (contains "lock" and "door", no "unlock"), with the approval
tool answering `true`, yields a state with `lights = "on"` and
`doors_locked = "locked"`, exactly one approval call, and exactly one
state-set call whose payload has exactly the keys `lights`, `doors_locked`. -/
theorem claim_C3_sentinel_lights_on_door_locked
    (approve : String → Bool) (llm : String → String)
    (cache : List (String × StateCache.HomeState)) (user_id msg ctx : String)
    (hlit : pyContains "lights" (pyLower msg) = true)
    (hon : pyContains "on" (pyLower msg) = true)
    (hoff : pyContains "off" (pyLower msg) = false)
    (hlock : pyContains "lock" (pyLower msg) = true)
    (hdoor : pyContains "door" (pyLower msg) = true)
    (hunlock : pyContains "unlock" (pyLower msg) = false)
    (happ : approve (Sentinel.approval_description user_id
      [("lights", "on"), ("doors_locked", "locked")]) = true) :
    (Sentinel.handle approve llm cache user_id msg ctx).1.approved = true
    ∧ aget (Sentinel.handle approve llm cache user_id msg ctx).1.state "lights" = some "on"
    ∧ aget (Sentinel.handle approve llm cache user_id msg ctx).1.state "doors_locked"
        = some "locked"
    ∧ (Sentinel.handle approve llm cache user_id msg ctx).2.2.approvals
        = [Sentinel.approval_description user_id [("lights", "on"), ("doors_locked", "locked")]]
    ∧ (Sentinel.handle approve llm cache user_id msg ctx).2.2.set_calls
        = [(user_id, [("lights", "on"), ("doors_locked", "locked")])] := by
  have hns : Sentinel.parse_new_state (pyLower msg)
      = [("lights", "on"), ("doors_locked", "locked")] := by
    unfold Sentinel.parse_new_state
    rw [hlit, hon, hoff, hlock, hdoor, hunlock]
    simp [aset]
  have hset : StateCache.get_home_state
      (StateCache.set_home_state cache user_id [("lights", "on"), ("doors_locked", "locked")])
        user_id
      = PyDict.update (StateCache.get_home_state cache user_id)
          [("lights", "on"), ("doors_locked", "locked")] :=
    StateCache.get_set_home_state cache user_id _
  have hlights : aget (PyDict.update (StateCache.get_home_state cache user_id)
      [("lights", "on"), ("doors_locked", "locked")]) "lights" = some "on" :=
    PyDict.aget_update_mem _ (by decide) (by decide)
  have hdoors : aget (PyDict.update (StateCache.get_home_state cache user_id)
      [("lights", "on"), ("doors_locked", "locked")]) "doors_locked" = some "locked" :=
    PyDict.aget_update_mem _ (by decide) (by decide)
  unfold Sentinel.handle
  dsimp only
  rw [hns]
  simp only [List.isEmpty_cons, Bool.false_eq_true, if_false, Bool.not_false, Bool.true_and,
    happ, if_true, hset]
  exact ⟨by trivial, hlights, hdoors, by trivial, by trivial⟩

/-- Witness for C3: the test-suite message "Turn the lights on and lock the
door." with an always-approving tool and an empty cache. -/
theorem claim_C3_witness :
    (Sentinel.handle (fun _ => true) (fun _ => "sentinel-narrative") [] "bryn"
      "Turn the lights on and lock the door." "").1.approved = true
    ∧ aget (Sentinel.handle (fun _ => true) (fun _ => "sentinel-narrative") [] "bryn"
      "Turn the lights on and lock the door." "").1.state "lights" = some "on"
    ∧ aget (Sentinel.handle (fun _ => true) (fun _ => "sentinel-narrative") [] "bryn"
      "Turn the lights on and lock the door." "").1.state "doors_locked" = some "locked"
    ∧ (Sentinel.handle (fun _ => true) (fun _ => "sentinel-narrative") [] "bryn"
      "Turn the lights on and lock the door." "").2.2.approvals
        = [Sentinel.approval_description "bryn" [("lights", "on"), ("doors_locked", "locked")]]
    ∧ (Sentinel.handle (fun _ => true) (fun _ => "sentinel-narrative") [] "bryn"
      "Turn the lights on and lock the door." "").2.2.set_calls
        = [("bryn", [("lights", "on"), ("doors_locked", "locked")])] :=
  claim_C3_sentinel_lights_on_door_locked (fun _ => true) (fun _ => "sentinel-narrative")
    [] "bryn" "Turn the lights on and lock the door." ""
    (by decide) (by decide) (by decide) (by decide) (by decide) (by decide) rfl

/-! ## Oracle (`src/agents/oracle.py`) -/

namespace Oracle

def TIME_SENSITIVE_KEYWORDS : List String :=
  [ "today", "yesterday", "this week", "this weekend", "this month", "this year"
  , "latest", "recent", "recently", "right now", "currently", "breaking", "news", "update" ]

def DOMAIN_KEYWORDS : List String :=
  [ "stock", "share price", "price", "market", "rate", "interest rate", "inflation"
  , "weather", "forecast", "election", "covid", "war", "conflict" ]

def SPORTS_RESULT_KEYWORDS : List String :=
  [ "score", "final score", "winning margin", "won by", "who won", "what was the score"
  , "result of the match", "result of the game", "full-time score", "ft score"
  , "match result", "game result" ]

def relative_phrases : List String :=
  [ "last week", "last weekend", "last month", "last year", "this week", "this month"
  , "this year", "tonight", "this evening", "this morning", "earlier today" ]

/-- ASCII word characters, for the `\b` word boundary of the year regex. -/
def isWordChar (c : Char) : Bool := c.isAlphanum || c == '_'

/-- Does `RECENT_YEAR_PATTERN = \b(20[1-4]\d|2024|2025)\b` match at the head
of the list (with `prev` the character before the current position)?  The
alternatives `2024`, `2025` are subsumed by `20[1-4]\d`. -/
def matchYearHere (prev : Option Char) : List Char → Bool
  | '2' :: '0' :: c3 :: c4 :: rest =>
      ('1' ≤ c3 && c3 ≤ '4') && c4.isDigit
      && (match prev with | none => true | some p => !isWordChar p)
      && (match rest with | [] => true | c5 :: _ => !isWordChar c5)
  | _ => false

/-- `RECENT_YEAR_PATTERN.search`: does the year pattern match anywhere? -/
def recentYearSearch (prev : Option Char) : List Char → Bool
  | [] => false
  | c1 :: rest => matchYearHere prev (c1 :: rest) || recentYearSearch (some c1) rest

def recent_year_pattern_search (s : String) : Bool :=
  recentYearSearch none s.toList

/-- `is_time_sensitive_query` from `src/agents/oracle.py`. -/
def is_time_sensitive_query (text : String) : Bool :=
  let lower := pyLower text
  if TIME_SENSITIVE_KEYWORDS.any (fun kw => pyContains kw lower) then true
  else if relative_phrases.any (fun kw => pyContains kw lower) then true
  else if DOMAIN_KEYWORDS.any (fun kw => pyContains kw lower) then true
  else if SPORTS_RESULT_KEYWORDS.any (fun kw => pyContains kw lower) then true
  else if recent_year_pattern_search lower then true
  else false

/-- `_is_sports_result_query` from `src/agents/oracle.py`. -/
def is_sports_result_query (text : String) : Bool :=
  let lower := pyLower text
  if SPORTS_RESULT_KEYWORDS.any (fun kw => pyContains kw lower) then true
  else if pyContains "vs" lower || pyContains "v " lower then
    pyContains "rugby" lower || pyContains "football" lower
      || pyContains "match" lower || pyContains "game" lower
  else false

/-- `ORACLE_BASE` from `src/prompts/system_instructions.py` (stripped; the
trailing space of the first source line is inside the string). -/
def ORACLE_BASE : String :=
  "You are Oracle, a precise, grounded knowledge assistant. \nIf you are unsure about something, say so, and request clarification from the user.\nWhere possible, rely on tools or search to ground your answers instead of guessing.\nYou must use search for requests which imply the need for up-to-date informations - for example \"who won the game last night\", \"what happened in politics last week\", \"what is the current Tesla stock price\".\nFor general knowledge queries which do not require search, answer using internal knowledge and ask if the user requires more detail.\nYou are able to answer a wide variety of questions, acting as a general purpose chat model."

structure SearchResult where
  title : String
  description : String
  url : String
deriving DecidableEq

/-- Behaviour of one invocation of a search tool: a result list, or an
exception. -/
inductive CallOutcome where
  | ok (results : List SearchResult)
  | raise (msg : String)
deriving DecidableEq

/-- Behaviour of the two search tools registered in the shipped
`TOOL_REGISTRY` (both are present there), as functions of the query. -/
structure OracleEnv where
  google : String → CallOutcome
  wikipedia : String → CallOutcome

structure OracleResult where
  answer : String
  search_results : List SearchResult
  tool_used : String

/-- The query actually sent to the search tool (sports-result queries get
" final score result" appended). -/
def query_for_search (user_message : String) : String :=
  if is_sports_result_query user_message then user_message ++ " final score result"
  else user_message

def formatSnippet (r : SearchResult) : String :=
  "- " ++ r.title ++ ": " ++ r.description ++ " (" ++ r.url ++ ")"

/-- The synthesised answer prompt of `OracleAgent.handle`. -/
def oracle_prompt (context_text search_block user_message : String) : String :=
  pyStrip ("\n" ++ ORACLE_BASE
    ++ "\n\nYou are a retrieval + reasoning specialist. You are given:\n\n1) Context from the user's long-term memory (may be empty).\n2) A block of search results from external tools (Google or Wikipedia).\n\nYour job:\n- Extract as much concrete, factual information as possible from the search results.\n- For sports / score / result queries, try very hard to identify the likely final score or clear outcome.\n- Only say you are \"unsure\" if the search results truly contain no relevant information at all.\n\nContext from memory:\n"
    ++ context_text ++ "\n\n" ++ search_block ++ "\n\nUser question:\n" ++ user_message
    ++ "\n\nUsing ONLY the information above:\n- Give a direct answer to the user if you can.\n- If several results hint at the same answer, you may infer the most likely one (and you can mention uncertainty).\n- If the search results discuss the match/event but do not explicitly state the score/result, summarise what *is* known instead of just saying \"unsure\".\n- If you genuinely cannot answer from the results, say that you are unsure and suggest where the user might check next.\n")

/-- `OracleAgent.handle`: returns the result dict and the trace of search
tool invocations as (tool name, query) pairs, in call order. -/
def handle (env : OracleEnv) (llm : String → String)
    (user_message context_text : String) :
    OracleResult × List (String × String) :=
  let use_google := is_time_sensitive_query user_message
  let tool_name := if use_google then "search.google" else "search.wikipedia"
  let q := query_for_search user_message
  -- both search tools are registered in the shipped TOOL_REGISTRY,
  -- so `TOOL_REGISTRY.get(tool_name)` is never None here
  let primary := if use_google then env.google q else env.wikipedia q
  let step1 :=
    match primary with
    | CallOutcome.ok rs => (rs, [(tool_name, q)])
    | CallOutcome.raise e => ([SearchResult.mk "Search error" e ""], [(tool_name, q)])
  let step2 :=
    if use_google && step1.1.isEmpty then
      match env.wikipedia user_message with
      | CallOutcome.ok rs =>
          (rs, "search.wikipedia", step1.2 ++ [("search.wikipedia", user_message)])
      | CallOutcome.raise _ =>
          (step1.1, tool_name, step1.2 ++ [("search.wikipedia", user_message)])
    else (step1.1, tool_name, step1.2)
  let results := step2.1
  let final_tool := step2.2.1
  let search_block :=
    if !results.isEmpty then
      "SEARCH TOOL (" ++ final_tool ++ ") RESULTS:\n"
        ++ String.intercalate "\n" (results.map formatSnippet)
    else "SEARCH TOOL (" ++ final_tool ++ ") RESULTS: (none or unavailable)"
  let answer := llm (oracle_prompt context_text search_block user_message)
  (⟨answer, results, final_tool⟩, step2.2.2)

end Oracle

/-- C2 counterexample: for the time-sensitive message "latest news", when the
live search returns an empty list and the Wikipedia fallback call raises,
`search.wikipedia` is invoked (once) but `tool_used` does NOT switch to
"search.wikipedia" — it stays "search.google" — refuting the claim's
unconditional "the returned tool_used field switches to search.wikipedia". -/
theorem claim_C2_counterexample :
    Oracle.is_time_sensitive_query "latest news" = true
    ∧ (Oracle.OracleEnv.mk (fun _ => Oracle.CallOutcome.ok [])
        (fun _ => Oracle.CallOutcome.raise "boom")).google
          (Oracle.query_for_search "latest news") = Oracle.CallOutcome.ok []
    ∧ (Oracle.handle
        (Oracle.OracleEnv.mk (fun _ => Oracle.CallOutcome.ok [])
          (fun _ => Oracle.CallOutcome.raise "boom"))
        (fun _ => "") "latest news" "").2
      = [("search.google", "latest news"), ("search.wikipedia", "latest news")]
    ∧ (Oracle.handle
        (Oracle.OracleEnv.mk (fun _ => Oracle.CallOutcome.ok [])
          (fun _ => Oracle.CallOutcome.raise "boom"))
        (fun _ => "") "latest news" "").1.tool_used = "search.google" := by
  refine ⟨by decide, rfl, ?_, ?_⟩ <;> rfl

/-- C2 (amended): tool selection and fallback of `Oracle.handle`.
(a) For a non-time-sensitive message only `search.wikipedia` is invoked
(zero `search.google` invocations) and `tool_used` is "search.wikipedia".
(b) For a time-sensitive message whose live-search call succeeds with a
non-empty list, only `search.google` is invoked and its results are used.
(c) If the live search returns an empty list and the fallback call returns
normally, `search.wikipedia` is invoked exactly once and `tool_used`
switches to "search.wikipedia".
(d) If the fallback call raises, `search.wikipedia` is still invoked exactly
once but the exception is swallowed: the result list stays empty and
`tool_used` remains "search.google". -/
theorem claim_C2_oracle_tool_selection (env : Oracle.OracleEnv)
    (llm : String → String) (msg ctx : String) :
    (Oracle.is_time_sensitive_query msg = false →
      (Oracle.handle env llm msg ctx).2 = [("search.wikipedia", Oracle.query_for_search msg)]
      ∧ (Oracle.handle env llm msg ctx).1.tool_used = "search.wikipedia")
    ∧ (∀ rs, Oracle.is_time_sensitive_query msg = true →
        env.google (Oracle.query_for_search msg) = Oracle.CallOutcome.ok rs → rs ≠ [] →
      (Oracle.handle env llm msg ctx).2 = [("search.google", Oracle.query_for_search msg)]
      ∧ (Oracle.handle env llm msg ctx).1.tool_used = "search.google"
      ∧ (Oracle.handle env llm msg ctx).1.search_results = rs)
    ∧ (∀ rs, Oracle.is_time_sensitive_query msg = true →
        env.google (Oracle.query_for_search msg) = Oracle.CallOutcome.ok [] →
        env.wikipedia msg = Oracle.CallOutcome.ok rs →
      (Oracle.handle env llm msg ctx).2
        = [("search.google", Oracle.query_for_search msg), ("search.wikipedia", msg)]
      ∧ (Oracle.handle env llm msg ctx).1.tool_used = "search.wikipedia"
      ∧ (Oracle.handle env llm msg ctx).1.search_results = rs)
    ∧ (∀ e, Oracle.is_time_sensitive_query msg = true →
        env.google (Oracle.query_for_search msg) = Oracle.CallOutcome.ok [] →
        env.wikipedia msg = Oracle.CallOutcome.raise e →
      (Oracle.handle env llm msg ctx).2
        = [("search.google", Oracle.query_for_search msg), ("search.wikipedia", msg)]
      ∧ (Oracle.handle env llm msg ctx).1.tool_used = "search.google"
      ∧ (Oracle.handle env llm msg ctx).1.search_results = []) := by
  refine ⟨?_, ?_, ?_, ?_⟩
  · intro hts
    unfold Oracle.handle
    dsimp only
    rw [hts]
    cases hw : env.wikipedia (Oracle.query_for_search msg) <;>
      simp [hw]
  · intro rs hts hg hne
    unfold Oracle.handle
    dsimp only
    rw [hts, hg]
    have : rs.isEmpty = false := by
      cases rs with
      | nil => exact absurd rfl hne
      | cons a l => rfl
    simp [this]
  · intro rs hts hg hw
    unfold Oracle.handle
    dsimp only
    rw [hts, hg, hw]
    simp
  · intro e hts hg hw
    unfold Oracle.handle
    dsimp only
    rw [hts, hg, hw]
    simp

/-- Witness for C2 at four concrete environments, one per case of the
amended claim. -/
theorem claim_C2_witness :
    ((Oracle.handle
        (Oracle.OracleEnv.mk (fun _ => Oracle.CallOutcome.raise "offline")
          (fun _ => Oracle.CallOutcome.ok [Oracle.SearchResult.mk "W" "W desc" "https://w"]))
        (fun _ => "oracle-answer") "Who was Ada Lovelace?" "").2
      = [("search.wikipedia", "Who was Ada Lovelace?")])
    ∧ ((Oracle.handle
        (Oracle.OracleEnv.mk (fun _ => Oracle.CallOutcome.ok
            [Oracle.SearchResult.mk "G" "G desc" "https://g"])
          (fun _ => Oracle.CallOutcome.ok [Oracle.SearchResult.mk "W" "W desc" "https://w"]))
        (fun _ => "oracle-answer") "latest news" "").2
      = [("search.google", "latest news")])
    ∧ ((Oracle.handle
        (Oracle.OracleEnv.mk (fun _ => Oracle.CallOutcome.ok [])
          (fun _ => Oracle.CallOutcome.ok [Oracle.SearchResult.mk "W" "W desc" "https://w"]))
        (fun _ => "oracle-answer") "latest news" "").1.tool_used = "search.wikipedia")
    ∧ ((Oracle.handle
        (Oracle.OracleEnv.mk (fun _ => Oracle.CallOutcome.ok [])
          (fun _ => Oracle.CallOutcome.raise "boom"))
        (fun _ => "oracle-answer") "latest news" "").1.tool_used = "search.google") :=
  ⟨(claim_C2_oracle_tool_selection
      (Oracle.OracleEnv.mk (fun _ => Oracle.CallOutcome.raise "offline")
        (fun _ => Oracle.CallOutcome.ok [Oracle.SearchResult.mk "W" "W desc" "https://w"]))
      (fun _ => "oracle-answer") "Who was Ada Lovelace?" "").1 (by decide) |>.1,
   (claim_C2_oracle_tool_selection
      (Oracle.OracleEnv.mk (fun _ => Oracle.CallOutcome.ok
          [Oracle.SearchResult.mk "G" "G desc" "https://g"])
        (fun _ => Oracle.CallOutcome.ok [Oracle.SearchResult.mk "W" "W desc" "https://w"]))
      (fun _ => "oracle-answer") "latest news" "").2.1
      [Oracle.SearchResult.mk "G" "G desc" "https://g"] (by decide) rfl (by simp) |>.1,
   (claim_C2_oracle_tool_selection
      (Oracle.OracleEnv.mk (fun _ => Oracle.CallOutcome.ok [])
        (fun _ => Oracle.CallOutcome.ok [Oracle.SearchResult.mk "W" "W desc" "https://w"]))
      (fun _ => "oracle-answer") "latest news" "").2.2.1
      [Oracle.SearchResult.mk "W" "W desc" "https://w"] (by decide) rfl rfl |>.2.1,
   (claim_C2_oracle_tool_selection
      (Oracle.OracleEnv.mk (fun _ => Oracle.CallOutcome.ok [])
        (fun _ => Oracle.CallOutcome.raise "boom"))
      (fun _ => "oracle-answer") "latest news" "").2.2.2
      "boom" (by decide) rfl rfl |>.2.1⟩

/-! ## Journal store (`src/memory/journal_store.py`)

The SQLite table `journal_entries` is modelled as a list of rows in
insertion order.  `uuid.uuid4()` and `datetime.utcnow().isoformat()` are the
only nondeterministic inputs of `save_entry` and are passed explicitly
(`created_at` always equals `timestamp` in the source and is omitted).
`ORDER BY timestamp DESC` compares TEXT columns bytewise (memcmp), modelled
by `leChars` on the character lists (identical on the ASCII ISO timestamps
the store writes). -/

namespace JournalStore

structure Entry where
  id : String
  user_id : String
  timestamp : String
  raw_text : String
  summary : String
  tags : List String
deriving DecidableEq, Repr

/-- Bytewise (memcmp) `≤` on strings, as SQLite compares TEXT. -/
def leChars : List Char → List Char → Bool
  | [], _ => true
  | _ :: _, [] => false
  | a :: as, b :: bs =>
    if a.toNat < b.toNat then true
    else if b.toNat < a.toNat then false
    else leChars as bs

def leStr (a b : String) : Bool := leChars a.toList b.toList

theorem leChars_total (a b : List Char) : leChars a b = true ∨ leChars b a = true := by
  induction a generalizing b with
  | nil => exact Or.inl rfl
  | cons x as ih =>
    cases b with
    | nil => exact Or.inr rfl
    | cons y bs =>
      by_cases h1 : x.toNat < y.toNat
      · left
        simp [leChars, h1]
      · by_cases h2 : y.toNat < x.toNat
        · right
          simp [leChars, h2]
        · have := ih bs
          rcases this with h | h
          · left
            simp [leChars, h1, h2, h]
          · right
            simp [leChars, h1, h2, h]

theorem leChars_trans {a b c : List Char} (hab : leChars a b = true)
    (hbc : leChars b c = true) : leChars a c = true := by
  induction a generalizing b c with
  | nil => rfl
  | cons x as ih =>
    cases b with
    | nil => simp [leChars] at hab
    | cons y bs =>
      cases c with
      | nil => simp [leChars] at hbc
      | cons z cs =>
        simp only [leChars] at hab hbc ⊢
        by_cases hxy : x.toNat < y.toNat
        · by_cases hyz : y.toNat < z.toNat
          · rw [if_pos (by omega)]
          · by_cases hzy : z.toNat < y.toNat
            · simp [hyz, hzy] at hbc
            · rw [if_pos (by omega)]
        · by_cases hyx : y.toNat < x.toNat
          · simp [hxy, hyx] at hab
          · by_cases hyz : y.toNat < z.toNat
            · rw [if_pos (by omega)]
            · by_cases hzy : z.toNat < y.toNat
              · simp [hyz, hzy] at hbc
              · rw [if_neg (by omega), if_neg (by omega)]
                simp only [hxy, hyx, if_false] at hab
                simp only [hyz, hzy, if_false] at hbc
                exact ih hab hbc

/-- Newest-first order used by the `ORDER BY timestamp DESC` model. -/
def tsGE (a b : Entry) : Prop := leStr b.timestamp a.timestamp = true

def insertDescByTs (e : Entry) : List Entry → List Entry
  | [] => [e]
  | x :: xs => if leStr x.timestamp e.timestamp then e :: x :: xs
               else x :: insertDescByTs e xs

/-- `ORDER BY timestamp DESC` (any SQLite-consistent order; ties keep a
deterministic order here). -/
def sortByTsDesc : List Entry → List Entry
  | [] => []
  | x :: xs => insertDescByTs x (sortByTsDesc xs)

theorem mem_insertDescByTs {a e : Entry} {l : List Entry} :
    a ∈ insertDescByTs e l ↔ a = e ∨ a ∈ l := by
  induction l with
  | nil => simp [insertDescByTs]
  | cons x xs ih =>
    by_cases h : leStr x.timestamp e.timestamp
    · simp [insertDescByTs, h]
    · simp only [insertDescByTs, if_neg h, List.mem_cons, ih]
      tauto

theorem mem_sortByTsDesc {a : Entry} {l : List Entry} :
    a ∈ sortByTsDesc l ↔ a ∈ l := by
  induction l with
  | nil => simp [sortByTsDesc]
  | cons x xs ih =>
    simp [sortByTsDesc, mem_insertDescByTs, ih]

theorem length_insertDescByTs (e : Entry) (l : List Entry) :
    (insertDescByTs e l).length = l.length + 1 := by
  induction l with
  | nil => rfl
  | cons x xs ih =>
    by_cases h : leStr x.timestamp e.timestamp
    · simp [insertDescByTs, h]
    · simp [insertDescByTs, h, ih]

theorem length_sortByTsDesc (l : List Entry) :
    (sortByTsDesc l).length = l.length := by
  induction l with
  | nil => rfl
  | cons x xs ih => simp [sortByTsDesc, length_insertDescByTs, ih]

theorem pairwise_insertDescByTs {e : Entry} {l : List Entry}
    (hl : l.Pairwise tsGE) : (insertDescByTs e l).Pairwise tsGE := by
  induction l with
  | nil => simp [insertDescByTs, List.pairwise_cons]
  | cons x xs ih =>
    rcases List.pairwise_cons.mp hl with ⟨hx, hxs⟩
    by_cases h : leStr x.timestamp e.timestamp
    · rw [insertDescByTs, if_pos h]
      refine List.pairwise_cons.mpr ⟨?_, hl⟩
      intro a ha
      rcases List.mem_cons.mp ha with rfl | ha
      · exact h
      · exact leChars_trans (hx a ha) h
    · rw [insertDescByTs, if_neg h]
      refine List.pairwise_cons.mpr ⟨?_, ih hxs⟩
      intro a ha
      rcases mem_insertDescByTs.mp ha with rfl | ha
      · rcases leChars_total a.timestamp.toList x.timestamp.toList with ht | ht
        · exact ht
        · exact absurd ht h
      · exact hx a ha

theorem pairwise_sortByTsDesc (l : List Entry) : (sortByTsDesc l).Pairwise tsGE := by
  induction l with
  | nil => simp [sortByTsDesc]
  | cons x xs ih => exact pairwise_insertDescByTs ih

/-- `save_entry`: generates (receives) the uuid and timestamp, inserts one
row, and returns the new entry id together with the table after the insert. -/
def save_entry (table : List Entry) (user_id raw_text summary : String)
    (tags : List String) (entry_id timestamp : String) : String × List Entry :=
  (entry_id, table ++ [⟨entry_id, user_id, timestamp, raw_text, summary, tags⟩])

/-- `get_recent_entries`: rows of the user, newest first, limited. -/
def get_recent_entries (table : List Entry) (user_id : String) (limit : Nat) :
    List Entry :=
  (sortByTsDesc (table.filter (fun e => e.user_id == user_id))).take limit

/-- One character of a SQLite `LIKE` comparison (case-insensitive on ASCII). -/
def likeCharEq (p c : Char) : Bool := p.toLower == c.toLower

/-- SQLite `LIKE` matching: `%` matches any run (including empty, via the
suffixes `t.tails`), `_` any single character. -/
def likeMatch : List Char → List Char → Bool
  | [], t => t.isEmpty
  | '%' :: ps, t => t.tails.any (fun t' => likeMatch ps t')
  | '_' :: ps, t =>
      match t with
      | [] => false
      | _ :: ts => likeMatch ps ts
  | p :: ps, t =>
      match t with
      | [] => false
      | c :: ts => likeCharEq p c && likeMatch ps ts

/-- The pattern `'%' + query.lower() + '%'` built by `search_entries`. -/
def like_pattern (query : String) : List Char :=
  '%' :: ((pyLower query).toList ++ ['%'])

/-- The WHERE clause `LOWER(summary || ' ' || raw_text) LIKE ?` of
`search_entries`. -/
def entry_matches (query : String) (e : Entry) : Bool :=
  likeMatch (like_pattern query) (pyLower (e.summary ++ " " ++ e.raw_text)).toList

/-- `search_entries`: keyword search over summary + raw text, newest first,
limited to `top_k`. -/
def search_entries (table : List Entry) (user_id query : String) (top_k : Nat) :
    List Entry :=
  (sortByTsDesc (table.filter
    (fun e => e.user_id == user_id && entry_matches query e))).take top_k

end JournalStore

namespace JournalStore

theorem likeMatch_append_here (q t : List Char) :
    likeMatch (q ++ ['%']) (q ++ t) = true := by
  induction q generalizing t with
  | nil =>
    simp only [List.nil_append, likeMatch]
    apply List.any_eq_true.mpr
    refine ⟨[], ?_, rfl⟩
    rw [List.mem_tails]
    exact List.nil_suffix
  | cons c q' ih =>
    by_cases hc : c = '%'
    · subst hc
      simp only [List.cons_append, likeMatch]
      apply List.any_eq_true.mpr
      refine ⟨q' ++ t, ?_, ih t⟩
      rw [List.mem_tails]
      exact ⟨['%'], rfl⟩
    · by_cases hc2 : c = '_'
      · subst hc2
        simp only [List.cons_append, likeMatch]
        exact ih t
      · simp only [List.cons_append, likeMatch, hc, hc2]
        simp only [likeCharEq, beq_self_eq_true, Bool.true_and]
        exact ih t

theorem likeMatch_of_hasSub {q t : List Char} (h : hasSub q t = true) :
    likeMatch ('%' :: (q ++ ['%'])) t = true := by
  obtain ⟨s, u, rfl⟩ := (hasSub_iff q t).mp h
  simp only [likeMatch]
  apply List.any_eq_true.mpr
  refine ⟨q ++ u, ?_, likeMatch_append_here q u⟩
  rw [List.mem_tails]
  exact ⟨s, by simp⟩

theorem hasSub_append_left {n x : List Char} (y : List Char)
    (h : hasSub n x = true) : hasSub n (x ++ y) = true := by
  rw [hasSub_iff] at h ⊢
  obtain ⟨s, t, rfl⟩ := h
  exact ⟨s, t ++ y, by simp⟩

theorem hasSub_append_right {n y : List Char} (x : List Char)
    (h : hasSub n y = true) : hasSub n (x ++ y) = true := by
  rw [hasSub_iff] at h ⊢
  obtain ⟨s, t, rfl⟩ := h
  exact ⟨x ++ s, t, by simp⟩

/-- A query occurring in the lowered summary or lowered raw text makes the
LIKE clause of `search_entries` match. -/
theorem entry_matches_of_sub {query : String} {e : Entry}
    (h : hasSub (pyLower query).toList (pyLower e.summary).toList = true
       ∨ hasSub (pyLower query).toList (pyLower e.raw_text).toList = true) :
    entry_matches query e = true := by
  unfold entry_matches like_pattern
  apply likeMatch_of_hasSub
  have hsplit : (pyLower (e.summary ++ " " ++ e.raw_text)).toList
      = (pyLower e.summary).toList ++ (' '.toLower :: (pyLower e.raw_text).toList) := by
    show ((e.summary ++ " " ++ e.raw_text).toList.map Char.toLower)
        = e.summary.toList.map Char.toLower
          ++ (' '.toLower :: e.raw_text.toList.map Char.toLower)
    simp
  rw [hsplit]
  rcases h with h | h
  · exact hasSub_append_left _ h
  · exact hasSub_append_right _ (by
      have : ' '.toLower :: (pyLower e.raw_text).toList
          = [' '.toLower] ++ (pyLower e.raw_text).toList := rfl
      rw [this]
      exact hasSub_append_right _ h)

end JournalStore

/-- C5 counterexample: `search_entries` truncates to `top_k` newest matches
(`LIMIT ?`), so a saved entry whose raw text contains the query term can be
absent from the search results — here the older of two matching entries is
cut off at `top_k = 1`, refuting "retrievable via search_entries whenever
the query term appears". -/
theorem claim_C5_counterexample :
    hasSub (pyLower "hello").toList
      (pyLower (JournalStore.Entry.mk "id1" "u" "2025-01-01T00:00:00" "hello world"
        "sum1" ["diary", "v1"]).raw_text).toList = true
    ∧ JournalStore.search_entries
        (JournalStore.save_entry
          (JournalStore.save_entry [] "u" "hello world" "sum1" ["diary", "v1"]
            "id1" "2025-01-01T00:00:00").2
          "u" "hello again" "sum2" ["diary", "v1"] "id2" "2025-01-02T00:00:00").2
        "u" "hello" 1
      = [JournalStore.Entry.mk "id2" "u" "2025-01-02T00:00:00" "hello again"
          "sum2" ["diary", "v1"]]
    ∧ JournalStore.Entry.mk "id1" "u" "2025-01-01T00:00:00" "hello world"
        "sum1" ["diary", "v1"]
      ∉ JournalStore.search_entries
        (JournalStore.save_entry
          (JournalStore.save_entry [] "u" "hello world" "sum1" ["diary", "v1"]
            "id1" "2025-01-01T00:00:00").2
          "u" "hello again" "sum2" ["diary", "v1"] "id2" "2025-01-02T00:00:00").2
        "u" "hello" 1 := by
  refine ⟨by decide, by decide, by decide⟩

/-- C5 (amended): journal uniqueness and round-trips.
(A) Two `save_entry` calls with identical raw text return the two supplied
(uuid4-generated, hence distinct) ids, and — when the user's rows fit the
limit — both entries appear in `get_recent_entries`, whose output is ordered
newest-first by timestamp.
(B) Any stored entry of the user is returned by `get_recent_entries` when
the user's row count is within the limit.
(C) Any stored entry of the user whose summary or raw text contains the
query (case-insensitively) is returned by `search_entries`, provided the
user's matching rows are within the `top_k` limit. -/
theorem claim_C5_journal_roundtrip
    (table : List JournalStore.Entry) (uid raw sum1 sum2 : String)
    (tags1 tags2 : List String) (id1 id2 t1 t2 query : String)
    (limit top_k : Nat) (e : JournalStore.Entry) :
    (id1 ≠ id2 →
      (table.filter (fun x => x.user_id == uid)).length + 2 ≤ limit →
      (JournalStore.save_entry table uid raw sum1 tags1 id1 t1).1 = id1
      ∧ (JournalStore.save_entry (JournalStore.save_entry table uid raw sum1 tags1 id1 t1).2
          uid raw sum2 tags2 id2 t2).1 = id2
      ∧ (JournalStore.save_entry table uid raw sum1 tags1 id1 t1).1
          ≠ (JournalStore.save_entry (JournalStore.save_entry table uid raw sum1 tags1 id1 t1).2
              uid raw sum2 tags2 id2 t2).1
      ∧ JournalStore.Entry.mk id1 uid t1 raw sum1 tags1
          ∈ JournalStore.get_recent_entries
              (JournalStore.save_entry (JournalStore.save_entry table uid raw sum1 tags1 id1 t1).2
                uid raw sum2 tags2 id2 t2).2 uid limit
      ∧ JournalStore.Entry.mk id2 uid t2 raw sum2 tags2
          ∈ JournalStore.get_recent_entries
              (JournalStore.save_entry (JournalStore.save_entry table uid raw sum1 tags1 id1 t1).2
                uid raw sum2 tags2 id2 t2).2 uid limit
      ∧ (JournalStore.get_recent_entries
              (JournalStore.save_entry (JournalStore.save_entry table uid raw sum1 tags1 id1 t1).2
                uid raw sum2 tags2 id2 t2).2 uid limit).Pairwise JournalStore.tsGE)
    ∧ (e ∈ table → e.user_id = uid →
      (table.filter (fun x => x.user_id == uid)).length ≤ limit →
      e ∈ JournalStore.get_recent_entries table uid limit)
    ∧ (e ∈ table → e.user_id = uid →
      (hasSub (pyLower query).toList (pyLower e.summary).toList = true
        ∨ hasSub (pyLower query).toList (pyLower e.raw_text).toList = true) →
      (table.filter
        (fun x => x.user_id == uid && JournalStore.entry_matches query x)).length ≤ top_k →
      e ∈ JournalStore.search_entries table uid query top_k) := by
  refine ⟨?_, ?_, ?_⟩
  · intro hid hlim
    have htable : (JournalStore.save_entry (JournalStore.save_entry table uid raw sum1 tags1 id1 t1).2
        uid raw sum2 tags2 id2 t2).2
        = table ++ [JournalStore.Entry.mk id1 uid t1 raw sum1 tags1,
                    JournalStore.Entry.mk id2 uid t2 raw sum2 tags2] := by
      simp [JournalStore.save_entry]
    have hfilter : ((table ++ [JournalStore.Entry.mk id1 uid t1 raw sum1 tags1,
          JournalStore.Entry.mk id2 uid t2 raw sum2 tags2]).filter
            (fun x => x.user_id == uid))
        = table.filter (fun x => x.user_id == uid)
          ++ [JournalStore.Entry.mk id1 uid t1 raw sum1 tags1,
              JournalStore.Entry.mk id2 uid t2 raw sum2 tags2] := by
      simp [List.filter_append]
    have hlen : (JournalStore.sortByTsDesc ((table ++ [JournalStore.Entry.mk id1 uid t1 raw sum1 tags1,
          JournalStore.Entry.mk id2 uid t2 raw sum2 tags2]).filter
            (fun x => x.user_id == uid))).length ≤ limit := by
      rw [JournalStore.length_sortByTsDesc, hfilter]
      simp only [List.length_append, List.length_cons, List.length_nil]
      omega
    refine ⟨rfl, rfl, hid, ?_, ?_, ?_⟩
    · rw [JournalStore.get_recent_entries, htable, List.take_of_length_le hlen,
        JournalStore.mem_sortByTsDesc, hfilter]
      simp
    · rw [JournalStore.get_recent_entries, htable, List.take_of_length_le hlen,
        JournalStore.mem_sortByTsDesc, hfilter]
      simp
    · rw [JournalStore.get_recent_entries]
      exact (JournalStore.pairwise_sortByTsDesc _).sublist (List.take_sublist _ _)
  · intro he heq hlim
    rw [JournalStore.get_recent_entries,
      List.take_of_length_le (by rw [JournalStore.length_sortByTsDesc]; exact hlim),
      JournalStore.mem_sortByTsDesc]
    exact List.mem_filter.mpr ⟨he, by simp [heq]⟩
  · intro he heq hq hlim
    rw [JournalStore.search_entries,
      List.take_of_length_le (by rw [JournalStore.length_sortByTsDesc]; exact hlim),
      JournalStore.mem_sortByTsDesc]
    exact List.mem_filter.mpr ⟨he,
      by simp [heq, JournalStore.entry_matches_of_sub hq]⟩

/-- Witness for C5: a one-entry store, two fresh saves, and a search hit. -/
theorem claim_C5_witness :
    JournalStore.Entry.mk "id1" "u" "2025-01-02T00:00:00" "hello world" "s1" ["diary", "v1"]
      ∈ JournalStore.get_recent_entries
          (JournalStore.save_entry
            (JournalStore.save_entry
              [JournalStore.Entry.mk "id0" "u" "2025-01-01T00:00:00" "hello world" "s0"
                ["diary", "v1"]]
              "u" "hello world" "s1" ["diary", "v1"] "id1" "2025-01-02T00:00:00").2
            "u" "hello world" "s2" ["diary", "v1"] "id2" "2025-01-03T00:00:00").2 "u" 10
    ∧ JournalStore.Entry.mk "id0" "u" "2025-01-01T00:00:00" "hello world" "s0" ["diary", "v1"]
        ∈ JournalStore.get_recent_entries
          [JournalStore.Entry.mk "id0" "u" "2025-01-01T00:00:00" "hello world" "s0"
            ["diary", "v1"]] "u" 10
    ∧ JournalStore.Entry.mk "id0" "u" "2025-01-01T00:00:00" "hello world" "s0" ["diary", "v1"]
        ∈ JournalStore.search_entries
          [JournalStore.Entry.mk "id0" "u" "2025-01-01T00:00:00" "hello world" "s0"
            ["diary", "v1"]] "u" "hello" 10 := by
  obtain ⟨hA, hB, hC⟩ := claim_C5_journal_roundtrip
    [JournalStore.Entry.mk "id0" "u" "2025-01-01T00:00:00" "hello world" "s0" ["diary", "v1"]]
    "u" "hello world" "s1" "s2" ["diary", "v1"] ["diary", "v1"]
    "id1" "id2" "2025-01-02T00:00:00" "2025-01-03T00:00:00" "hello" 10 10
    (JournalStore.Entry.mk "id0" "u" "2025-01-01T00:00:00" "hello world" "s0" ["diary", "v1"])
  exact ⟨(hA (by decide) (by decide)).2.2.2.1,
    hB (by decide) rfl (by decide),
    hC (by decide) rfl (Or.inr (by decide)) (by decide)⟩

/-! ## JSON values and `json.loads` (Python standard library)

Model of the strict JSON decoder used by Scribe via `json.loads`.  Numbers
are kept as their lexemes (their numeric value is irrelevant to every claim;
only Python truthiness of `0`/`0.0` is interpreted).  `\uXXXX` escapes are
decoded to the corresponding scalar (surrogate halves, which Lean `Char`
cannot hold, map to NUL — no claim exercises them).  Duplicate object keys
follow Python dict semantics: the last occurrence wins. -/

namespace Json

inductive JVal where
  | null
  | bool (b : Bool)
  | num (lexeme : String)
  | str (s : String)
  | arr (items : List JVal)
  | obj (fields : List (String × JVal))

/-- JSON whitespace accepted by the decoder. -/
def jsonWs (c : Char) : Bool := c == ' ' || c == '\t' || c == '\n' || c == '\r'

def skipWs (l : List Char) : List Char := l.dropWhile jsonWs

def hexVal (c : Char) : Option Nat :=
  if '0' ≤ c ∧ c ≤ '9' then some (c.toNat - '0'.toNat)
  else if 'a' ≤ c ∧ c ≤ 'f' then some (c.toNat - 'a'.toNat + 10)
  else if 'A' ≤ c ∧ c ≤ 'F' then some (c.toNat - 'A'.toNat + 10)
  else none

/-- Parse the body of a string literal (after the opening quote); returns the
decoded characters and the input after the closing quote. -/
def parseStringBody : List Char → Option (List Char × List Char)
  | [] => none
  | '"' :: rest => some ([], rest)
  | '\\' :: esc =>
    match esc with
    | '"' :: r => (parseStringBody r).map (fun p => ('"' :: p.1, p.2))
    | '\\' :: r => (parseStringBody r).map (fun p => ('\\' :: p.1, p.2))
    | '/' :: r => (parseStringBody r).map (fun p => ('/' :: p.1, p.2))
    | 'b' :: r => (parseStringBody r).map (fun p => ('\x08' :: p.1, p.2))
    | 'f' :: r => (parseStringBody r).map (fun p => ('\x0c' :: p.1, p.2))
    | 'n' :: r => (parseStringBody r).map (fun p => ('\n' :: p.1, p.2))
    | 'r' :: r => (parseStringBody r).map (fun p => ('\r' :: p.1, p.2))
    | 't' :: r => (parseStringBody r).map (fun p => ('\t' :: p.1, p.2))
    | 'u' :: a :: b :: c :: d :: r =>
      match hexVal a, hexVal b, hexVal c, hexVal d with
      | some ha, some hb, some hc, some hd =>
        (parseStringBody r).map
          (fun p => (Char.ofNat (((ha * 16 + hb) * 16 + hc) * 16 + hd) :: p.1, p.2))
      | _, _, _, _ => none
    | _ => none
  | c :: rest =>
    if c.toNat < 0x20 then none
    else (parseStringBody rest).map (fun p => (c :: p.1, p.2))

/-- Parse a number lexeme per the JSON grammar
`-? (0 | [1-9][0-9]*) frac? exp?`; returns the lexeme and the rest. -/
def parseNumberLexeme (l : List Char) : Option (List Char × List Char) :=
  let signSplit : List Char × List Char :=
    match l with
    | '-' :: r => (['-'], r)
    | _ => ([], l)
  let sign := signSplit.1
  let l1 := signSplit.2
  let intSplit : Option (List Char × List Char) :=
    match l1 with
    | '0' :: r => some (['0'], r)
    | c :: r =>
      if '1' ≤ c ∧ c ≤ '9' then
        some (c :: r.takeWhile Char.isDigit, r.dropWhile Char.isDigit)
      else none
    | [] => none
  match intSplit with
  | none => none
  | some (ip, l2) =>
    let fracSplit : Option (List Char × List Char) :=
      match l2 with
      | '.' :: r =>
        if (r.takeWhile Char.isDigit).isEmpty then none
        else some ('.' :: r.takeWhile Char.isDigit, r.dropWhile Char.isDigit)
      | _ => some ([], l2)
    match fracSplit with
    | none => none
    | some (fp, l3) =>
      let expSplit : Option (List Char × List Char) :=
        match l3 with
        | e :: r =>
          if e = 'e' ∨ e = 'E' then
            let signedR : List Char × List Char :=
              match r with
              | s :: r2 => if s = '+' ∨ s = '-' then ([s], r2) else ([], r)
              | [] => ([], r)
            if (signedR.2.takeWhile Char.isDigit).isEmpty then none
            else some (e :: signedR.1 ++ signedR.2.takeWhile Char.isDigit,
                       signedR.2.dropWhile Char.isDigit)
          else some ([], l3)
        | [] => some ([], l3)
      match expSplit with
      | none => none
      | some (ep, l4) => some (sign ++ ip ++ fp ++ ep, l4)

mutual

/-- Parse one JSON value (leading whitespace allowed); `fuel` bounds the
recursion and is at least the input length at the top call. -/
def parseValue : Nat → List Char → Option (JVal × List Char)
  | 0, _ => none
  | fuel + 1, l =>
    match skipWs l with
    | 'n' :: 'u' :: 'l' :: 'l' :: r => some (JVal.null, r)
    | 't' :: 'r' :: 'u' :: 'e' :: r => some (JVal.bool true, r)
    | 'f' :: 'a' :: 'l' :: 's' :: 'e' :: r => some (JVal.bool false, r)
    | '"' :: r => (parseStringBody r).map (fun p => (JVal.str ⟨p.1⟩, p.2))
    | '[' :: r =>
      (match skipWs r with
       | ']' :: r2 => some (JVal.arr [], r2)
       | _ => (parseArrItems fuel (skipWs r)).map (fun p => (JVal.arr p.1, p.2)))
    | '{' :: r =>
      (match skipWs r with
       | '}' :: r2 => some (JVal.obj [], r2)
       | _ => (parseObjItems fuel (skipWs r)).map
           (fun p => (JVal.obj (p.1.foldl (fun d kv => aset d kv.1 kv.2) []), p.2)))
    | l' => (parseNumberLexeme l').map (fun p => (JVal.num ⟨p.1⟩, p.2))

/-- Parse `value (',' value)* ']'` (the input starts at the first item). -/
def parseArrItems : Nat → List Char → Option (List JVal × List Char)
  | 0, _ => none
  | fuel + 1, l =>
    match parseValue fuel l with
    | none => none
    | some (v, r) =>
      match skipWs r with
      | ',' :: r2 =>
        (parseArrItems fuel r2).map (fun p => (v :: p.1, p.2))
      | ']' :: r2 => some ([v], r2)
      | _ => none

/-- Parse `member (',' member)* '}'` (the input starts at the first key). -/
def parseObjItems : Nat → List Char → Option (List (String × JVal) × List Char)
  | 0, _ => none
  | fuel + 1, l =>
    match l with
    | '"' :: r =>
      (match parseStringBody r with
       | none => none
       | some (key, r1) =>
         match skipWs r1 with
         | ':' :: r2 =>
           (match parseValue fuel r2 with
            | none => none
            | some (v, r3) =>
              match skipWs r3 with
              | ',' :: r4 =>
                (parseObjItems fuel (skipWs r4)).map
                  (fun p => ((⟨key⟩, v) :: p.1, p.2))
              | '}' :: r4 => some ([(⟨key⟩, v)], r4)
              | _ => none)
         | _ => none)
    | _ => none

end

/-- `json.loads`: strict parse of the whole string (surrounding whitespace
tolerated, trailing data rejected); `none` models a raised `JSONDecodeError`. -/
def loads (s : String) : Option JVal :=
  let l := s.toList
  match parseValue (l.length + 1) l with
  | some (v, rest) => if (skipWs rest).isEmpty then some v else none
  | none => none

end Json

/-! ## Scribe's event-JSON extraction (`ScribeAgent._parse_event_json`) -/

namespace Scribe

/-- Index of the first occurrence of `c`. -/
def findIdx (c : Char) : List Char → Option Nat
  | [] => none
  | x :: xs => if x = c then some 0 else (findIdx c xs).map (· + 1)

/-- Index of the last occurrence of `c`. -/
def rFindIdx (c : Char) (l : List Char) : Option Nat :=
  (findIdx c l.reverse).map (fun k => l.length - 1 - k)

/-- Python `str.find` (first index or `-1`). -/
def pyFind (s : String) (c : Char) : Int :=
  match findIdx c s.toList with
  | some n => (n : Int)
  | none => -1

/-- Python `str.rfind` (last index or `-1`). -/
def pyRFind (s : String) (c : Char) : Int :=
  match rFindIdx c s.toList with
  | some n => (n : Int)
  | none => -1

/-- Python `s[a:b]` for the non-negative indices used here. -/
def pySlice (s : String) (a b : Int) : String :=
  ⟨(s.toList.drop a.toNat).take (b - a).toNat⟩

/-- `ScribeAgent._parse_event_json`: strip, strict `json.loads` (dict only),
else parse the `raw[start:end+1]` span between the first `"{"` (`str.find`)
and the last `"}"` (`str.rfind`). -/
def parse_event_json (raw : String) : Option (List (String × Json.JVal)) :=
  let raw := pyStrip raw
  match Json.loads raw with
  | some (Json.JVal.obj o) => some o
  | _ =>
    let start := pyFind raw '{'
    let stop := pyRFind raw '}'
    if start ≠ -1 ∧ stop ≠ -1 ∧ stop > start then
      match Json.loads (pySlice raw start (stop + 1)) with
      | some (Json.JVal.obj o) => some o
      | _ => none
    else none

end Scribe

/-! ### The claim's reading of the fallback, and the code's actual span -/

/-- Scan for the matching `}` of an already-seen `{` (depth ≥ 1), per the
claim's words "the first balanced `{...}` span". -/
def goBalanced : List Char → Nat → List Char → Option (List Char)
  | [], _, _ => none
  | c :: rest, depth, acc =>
    if c = '{' then goBalanced rest (depth + 1) (acc ++ [c])
    else if c = '}' then
      if depth = 1 then some (acc ++ [c])
      else goBalanced rest (depth - 1) (acc ++ [c])
    else goBalanced rest depth (acc ++ [c])

/-- The first balanced `{...}` span of the string, following the claim. -/
def firstBalancedSpan : List Char → Option (List Char)
  | [] => none
  | c :: rest => if c = '{' then goBalanced rest 1 ['{'] else firstBalancedSpan rest

/-- `parse_event_json` as the claim describes it: strict parse of the whole
string first, else parse the FIRST BALANCED `{...}` span. -/
def parse_event_json_claimed (raw : String) : Option (List (String × Json.JVal)) :=
  match Json.loads raw with
  | some (Json.JVal.obj o) => some o
  | _ =>
    match firstBalancedSpan raw.toList with
    | some span =>
      match Json.loads (⟨span⟩ : String) with
      | some (Json.JVal.obj o) => some o
      | _ => none
    | none => none

/-- The span the code actually takes: first `"{"` to last `"}"`. -/
def spanFirstToLast (l : List Char) : Option (List Char) :=
  match Scribe.findIdx '{' l, Scribe.rFindIdx '}' l with
  | some s, some e => if s < e then some ((l.drop s).take (e + 1 - s)) else none
  | _, _ => none

/-- `parse_event_json` as amended: strip, strict parse (dict only), else
parse the span from the first `"{"` to the last `"}"`. -/
def parse_event_json_amended (raw : String) : Option (List (String × Json.JVal)) :=
  let raw := pyStrip raw
  match Json.loads raw with
  | some (Json.JVal.obj o) => some o
  | _ =>
    match spanFirstToLast raw.toList with
    | some span =>
      match Json.loads (⟨span⟩ : String) with
      | some (Json.JVal.obj o) => some o
      | _ => none
    | none => none

/-- The code's fallback (Python `find`/`rfind` with `-1` sentinels and the
`raw[start:end+1]` slice) computes exactly the first-`{`-to-last-`}` span. -/
theorem fallback_span_eq (s : String) :
    (if Scribe.pyFind s '{' ≠ -1 ∧ Scribe.pyRFind s '}' ≠ -1
        ∧ Scribe.pyRFind s '}' > Scribe.pyFind s '{' then
       match Json.loads (Scribe.pySlice s (Scribe.pyFind s '{') (Scribe.pyRFind s '}' + 1)) with
       | some (Json.JVal.obj o) => some o
       | _ => none
     else none)
    = match spanFirstToLast s.toList with
      | some span =>
        (match Json.loads (⟨span⟩ : String) with
         | some (Json.JVal.obj o) => some o
         | _ => none)
      | none => none := by
  simp only [Scribe.pyFind, Scribe.pyRFind, spanFirstToLast]
  cases hf : Scribe.findIdx '{' s.toList with
  | none =>
    cases hr : Scribe.rFindIdx '}' s.toList <;> simp
  | some i =>
    cases hr : Scribe.rFindIdx '}' s.toList with
    | none => simp
    | some j =>
      dsimp only
      by_cases hij : i < j
      · rw [if_pos ⟨by omega, by omega, by exact_mod_cast hij⟩, if_pos hij]
        have hslice : Scribe.pySlice s (i : Int) ((j : Int) + 1)
            = (⟨(s.toList.drop i).take (j + 1 - i)⟩ : String) := by
          simp only [Scribe.pySlice]
          have h1 : ((i : Int)).toNat = i := by omega
          have h2 : (((j : Int) + 1) - (i : Int)).toNat = j + 1 - i := by omega
          rw [h1, h2]
        rw [hslice]
      · rw [if_neg (by push_neg; intro _ _; omega), if_neg hij]

/-- C8 counterexample: on `'{"a": 1} {"b": 2}'` the strict parse fails
(trailing data), the first balanced span is `{"a": 1}` — a valid dict the
claim says is returned — but the code takes first-`{`-to-last-`}`, i.e. the
whole string, whose parse fails, and returns None. -/
theorem claim_C8_counterexample :
    Scribe.parse_event_json "\x7b\"a\": 1\x7d \x7b\"b\": 2\x7d" = none
    ∧ parse_event_json_claimed "\x7b\"a\": 1\x7d \x7b\"b\": 2\x7d"
        = some [("a", Json.JVal.num "1")]
    ∧ parse_event_json_claimed "\x7b\"a\": 1\x7d \x7b\"b\": 2\x7d"
        ≠ Scribe.parse_event_json "\x7b\"a\": 1\x7d \x7b\"b\": 2\x7d" := by
  refine ⟨rfl, rfl, ?_⟩
  show some [("a", Json.JVal.num "1")] ≠ none
  exact Option.some_ne_none _

/-- C8 (amended): `_parse_event_json` strips the output, attempts a strict
JSON parse of the whole string and returns it when it is a dict; otherwise —
also when the strict parse yields a non-dict value — it parses the span from
the first `{` to the LAST `}` (not the first balanced span) and returns the
parsed object when that span is valid JSON for a dict, and None otherwise. -/
theorem claim_C8_parse_event_json (raw : String) :
    Scribe.parse_event_json raw = parse_event_json_amended raw := by
  unfold Scribe.parse_event_json parse_event_json_amended
  dsimp only
  cases hl : Json.loads (pyStrip raw) with
  | none => exact fallback_span_eq (pyStrip raw)
  | some v =>
    cases v with
    | obj o => rfl
    | null => exact fallback_span_eq (pyStrip raw)
    | bool b => exact fallback_span_eq (pyStrip raw)
    | num lex => exact fallback_span_eq (pyStrip raw)
    | str s => exact fallback_span_eq (pyStrip raw)
    | arr xs => exact fallback_span_eq (pyStrip raw)

/-! ## `datetime` arithmetic (Python standard library)

Model of the stdlib pieces `_schedule_event` uses: naive
`datetime.fromisoformat` (the formats `YYYY-MM-DD[*HH[:MM[:SS[.fff[fff]]]]]`
of Python 3.7–3.10, no timezone offsets — the extraction prompt instructs the
model to emit exactly `YYYY-MM-DDTHH:MM:SS`), `+ timedelta(hours=1)` (via
civil-calendar day numbers; `none` models the `OverflowError` outside years
1–9999), and `datetime.isoformat`. -/

namespace PyDateTime

structure DateTime where
  year : Int
  month : Nat
  day : Nat
  hour : Nat
  minute : Nat
  second : Nat
  micro : Nat
deriving DecidableEq, Repr

def isLeap (y : Int) : Bool := (y % 4 == 0 && y % 100 != 0) || y % 400 == 0

def daysInMonth (y : Int) (m : Nat) : Nat :=
  match m with
  | 1 => 31 | 2 => if isLeap y then 29 else 28 | 3 => 31 | 4 => 30
  | 5 => 31 | 6 => 30 | 7 => 31 | 8 => 31
  | 9 => 30 | 10 => 31 | 11 => 30 | 12 => 31
  | _ => 0

/-- Read exactly `n` decimal digits, accumulating into `acc`. -/
def takeDigits : Nat → Nat → List Char → Option (Nat × List Char)
  | 0, acc, l => some (acc, l)
  | n + 1, acc, c :: r =>
    if c.isDigit then takeDigits n (acc * 10 + (c.toNat - '0'.toNat)) r else none
  | _ + 1, _, [] => none

def expectChar (c : Char) : List Char → Option (List Char)
  | x :: r => if x = c then some r else none
  | [] => none

/-- The time part `HH[:MM[:SS[.fff[fff]]]]`; returns (h, min, s, micro). -/
def parseIsoTime (l : List Char) : Option (Nat × Nat × Nat × Nat) := do
  let (h, l1) ← takeDigits 2 0 l
  match l1 with
  | [] => some (h, 0, 0, 0)
  | ':' :: l2 => do
    let (mi, l3) ← takeDigits 2 0 l2
    match l3 with
    | [] => some (h, mi, 0, 0)
    | ':' :: l4 => do
      let (se, l5) ← takeDigits 2 0 l4
      match l5 with
      | [] => some (h, mi, se, 0)
      | '.' :: l6 =>
        if l6.length = 3 then
          (takeDigits 3 0 l6).bind
            (fun p => if p.2.isEmpty then some (h, mi, se, p.1 * 1000) else none)
        else if l6.length = 6 then
          (takeDigits 6 0 l6).bind
            (fun p => if p.2.isEmpty then some (h, mi, se, p.1) else none)
        else none
      | _ => none
    | _ => none
  | _ => none

/-- Naive `datetime.fromisoformat`. -/
def pyFromIsoformat (s : String) : Option DateTime :=
  let parsed : Option (Nat × Nat × Nat × Nat × Nat × Nat × Nat) := do
    let (y, l1) ← takeDigits 4 0 s.toList
    let l2 ← expectChar '-' l1
    let (mo, l3) ← takeDigits 2 0 l2
    let l4 ← expectChar '-' l3
    let (d, l5) ← takeDigits 2 0 l4
    match l5 with
    | [] => some (y, mo, d, 0, 0, 0, 0)
    | _ :: lt => (parseIsoTime lt).map (fun t => (y, mo, d, t.1, t.2.1, t.2.2.1, t.2.2.2))
  match parsed with
  | none => none
  | some (y, mo, d, h, mi, se, mic) =>
    if 1 ≤ y ∧ 1 ≤ mo ∧ mo ≤ 12 ∧ 1 ≤ d ∧ d ≤ daysInMonth (y : Int) mo
        ∧ h ≤ 23 ∧ mi ≤ 59 ∧ se ≤ 59 then
      some ⟨(y : Int), mo, d, h, mi, se, mic⟩
    else none

/-- Days since 1970-01-01 of a civil date (Hinnant's `days_from_civil`). -/
def daysFromCivil (y : Int) (m d : Nat) : Int :=
  let y' : Int := if m ≤ 2 then y - 1 else y
  let era : Int := (if 0 ≤ y' then y' else y' - 399) / 400
  let yoe : Int := y' - era * 400
  let mp : Int := ((m : Int) + 9) % 12
  let doy : Int := (153 * mp + 2) / 5 + (d : Int) - 1
  let doe : Int := yoe * 365 + yoe / 4 - yoe / 100 + doy
  era * 146097 + doe - 719468

/-- Civil date of a day number (Hinnant's `civil_from_days`). -/
def civilFromDays (z0 : Int) : Int × Nat × Nat :=
  let z := z0 + 719468
  let era : Int := (if 0 ≤ z then z else z - 146096) / 146097
  let doe : Int := z - era * 146097
  let yoe : Int := (doe - doe / 1460 + doe / 36524 - doe / 146096) / 365
  let y : Int := yoe + era * 400
  let doy : Int := doe - (365 * yoe + yoe / 4 - yoe / 100)
  let mp : Int := (5 * doy + 2) / 153
  let d : Int := doy - (153 * mp + 2) / 5 + 1
  let m : Int := if mp < 10 then mp + 3 else mp - 9
  (if m ≤ 2 then y + 1 else y, m.toNat, d.toNat)

/-- `dt + timedelta(hours=1)`; `none` is the `OverflowError` outside the
`datetime` year range 1–9999. -/
def pyAddHour (dt : DateTime) : Option DateTime :=
  let total : Int := daysFromCivil dt.year dt.month dt.day * 86400
    + dt.hour * 3600 + dt.minute * 60 + dt.second + 3600
  let day2 : Int := Int.fdiv total 86400
  let rem : Nat := (total - day2 * 86400).toNat
  match civilFromDays day2 with
  | (y2, m2, d2) =>
    if 1 ≤ y2 ∧ y2 ≤ 9999 then
      some ⟨y2, m2, d2, rem / 3600, rem % 3600 / 60, rem % 60, dt.micro⟩
    else none

def padNum (w n : Nat) : String :=
  let s := toString n
  (⟨List.replicate (w - s.length) '0'⟩ : String) ++ s

/-- `datetime.isoformat()` of a naive datetime. -/
def pyIsoformat (dt : DateTime) : String :=
  padNum 4 dt.year.toNat ++ "-" ++ padNum 2 dt.month ++ "-" ++ padNum 2 dt.day
    ++ "T" ++ padNum 2 dt.hour ++ ":" ++ padNum 2 dt.minute ++ ":" ++ padNum 2 dt.second
    ++ (if dt.micro = 0 then "" else "." ++ padNum 6 dt.micro)

end PyDateTime

/-! ## Tool registry (`src/tools/__init__.py`) -/

namespace Tools

/-- The callables of the shipped registry (tags; the behaviours relevant to a
claim are supplied through an interpretation parameter). -/
inductive ToolImpl where
  | math_add
  | math_subtract
  | human_approve
  | search_google
  | search_wikipedia
  | calendar_add_event
  | calendar_list_upcoming
  | calendar_local_add
  | calendar_local_list
  | memory_journal_recent
  | memory_journal_search
  | smarthome_get_state
  | smarthome_set_state
deriving DecidableEq, Repr

/-- `TOOL_REGISTRY`: the shipped name → callable mapping. -/
def TOOL_REGISTRY : List (String × ToolImpl) :=
  [ ("math.add", ToolImpl.math_add)
  , ("math.subtract", ToolImpl.math_subtract)
  , ("human.approve", ToolImpl.human_approve)
  , ("search.google", ToolImpl.search_google)
  , ("search.wikipedia", ToolImpl.search_wikipedia)
  , ("calendar.add_event", ToolImpl.calendar_add_event)
  , ("calendar.list_upcoming", ToolImpl.calendar_list_upcoming)
  , ("calendar.local_add", ToolImpl.calendar_local_add)
  , ("calendar.local_list", ToolImpl.calendar_local_list)
  , ("memory.journal_recent", ToolImpl.memory_journal_recent)
  , ("memory.journal_search", ToolImpl.memory_journal_search)
  , ("smarthome.get_state", ToolImpl.smarthome_get_state)
  , ("smarthome.set_state", ToolImpl.smarthome_set_state)
  ]

end Tools

/-! ## Scribe (`src/agents/scribe.py`): mode classifier and schedule flow -/

namespace Scribe

inductive Mode where
  | schedule
  | log
  | reflect
deriving DecidableEq, Repr

def scheduling_keywords : List String :=
  [ "add to my calendar", "add this to my calendar", "add it to my calendar"
  , "put this in my calendar", "put it in my calendar", "schedule", "schedule in"
  , "schedule this", "book in", "set a reminder", "remind me", "create an event"
  , "create event", "calendar", "meeting", "appointment", "dinner with", "call with" ]

def log_keywords : List String :=
  [ "log:", "log ", "diary", "journal", "note to self", "write this down"
  , "record this", "remember that" ]

/-- `ScribeAgent._classify_mode`. -/
def classify_mode (user_message : String) : Mode :=
  let text := pyLower user_message
  if scheduling_keywords.any (fun kw => pyContains kw text) then Mode.schedule
  else if log_keywords.any (fun kw => pyContains kw text) then Mode.log
  else if ["reflect", "pattern", "trend", "lately", "recent notes"].any
      (fun kw => pyContains kw text) then Mode.reflect
  else Mode.reflect

/-- `SCRIBE_BASE` from `src/prompts/system_instructions.py` (stripped). -/
def SCRIBE_BASE : String :=
  "You are Scribe, a diary and reflection assistant.\nYou help the user capture notes, summarise them, and reflect on recurrent themes.\nYou are gentle, non-judgmental, and focused on clarity."

/-- The event-extraction prompt of `_schedule_event`. -/
def extraction_prompt (user_message : String) : String :=
  pyStrip ("\n" ++ SCRIBE_BASE
    ++ "\n\nYou are the Scribe, responsible for turning user scheduling requests\ninto precise calendar events.\n\nThe user says:\n\"\"\""
    ++ user_message
    ++ "\"\"\"\n\n\n1. Carefully infer:\n   - A short, human-friendly title summarising the event.\n   - A start datetime.\n   - An end datetime (if none is given, default to 1 hour after start).\n\n2. Normalise both datetimes to ISO 8601 format WITHOUT timezone offsets,\n   in the exact form: YYYY-MM-DDTHH:MM:SS\n   Examples:\n   - \"2025-12-12T19:00:00\"\n   - \"2025-06-01T09:30:00\"\n\n3. If you truly cannot infer a start date/time at all, set \"start_iso\"\n   to null and \"end_iso\" to null, but do this only as a last resort.\n   Prefer **making a reasonable assumption** over returning null.\n\n4. ALWAYS respond with a single, strictly valid JSON object and nothing else.\n   The JSON must have exactly these keys:\n   - \"title\": string\n   - \"start_iso\": string or null\n   - \"end_iso\": string or null\n\nExamples of valid JSON responses:\n\x7b\n  \"title\": \"Dinner with Annie\",\n  \"start_iso\": \"2025-12-12T19:00:00\",\n  \"end_iso\": \"2025-12-12T21:00:00\"\n\x7d\n\n\x7b\n  \"title\": \"Call with therapist\",\n  \"start_iso\": \"2025-11-10T15:30:00\",\n  \"end_iso\": \"2025-11-10T16:30:00\"\n\x7d\n")

/-- Is the lexeme of a JSON number zero (`0`, `-0.00`, `0e5`, ...)?  Python
`not 0` / `not 0.0` is `True`. -/
def numIsZero (lex : String) : Bool :=
  (lex.toList.takeWhile (fun c => c != 'e' && c != 'E')).all
    (fun c => !c.isDigit || c == '0')

/-- Python truthiness of a decoded JSON value. -/
def truthy : Json.JVal → Bool
  | Json.JVal.null => false
  | Json.JVal.bool b => b
  | Json.JVal.num lex => !numIsZero lex
  | Json.JVal.str s => !s.isEmpty
  | Json.JVal.arr xs => !xs.isEmpty
  | Json.JVal.obj kvs => !kvs.isEmpty

/-- Python truthiness of `d.get(k)` (`None` when the key is absent). -/
def truthyOpt : Option Json.JVal → Bool
  | none => false
  | some v => truthy v

/-- The keyword arguments of a `calendar.create_event` invocation
(`user_email=None` is constant and omitted). -/
structure CreateEventArgs where
  title : Json.JVal
  start_iso : Json.JVal
  end_iso : Json.JVal
  description : String

/-- Behaviour of one `create_event_tool(...)` call: an event id, or an
exception (carrying its `repr` text). -/
inductive CreateOutcome where
  | ok (event_id : String)
  | raise (msg : String)

/-- The result dict of `_schedule_event` (without the `mode`/`tools_used`
defaults added by `handle`). -/
structure ScheduleResult where
  parsed_event : Option (List (String × Json.JVal))
  event_id : Option String
  tools_used : List String
  note : String

def note_unavailable : String :=
  "I tried to schedule this, but my calendar tool isn't available. You may need to add it manually for now."

def note_cant_extract : String :=
  "I tried to interpret your scheduling request with my LLM-based planner, but I couldn't extract a usable date/time. Please try again with something like: 'Dinner with Annie on 2025-12-12 from 19:00 to 22:00'."

def note_no_start : String :=
  "My LLM planner couldn't confidently infer any start time at all from your message, so I didn't create an event. Try including an explicit date and time."

def note_created : String := "Event created successfully in your calendar."

/-- The `end_iso` used when the extracted end time is falsy: `start + 1 hour`
when the start string parses; on any exception (non-string start, parse
failure, overflow) fall back to the start itself (a zero-length event). -/
def default_end (sv : Json.JVal) : Json.JVal :=
  match sv with
  | Json.JVal.str s =>
    match PyDateTime.pyFromIsoformat s with
    | some dt =>
      match PyDateTime.pyAddHour dt with
      | some dt2 => Json.JVal.str (PyDateTime.pyIsoformat dt2)
      | none => Json.JVal.str s
    | none => Json.JVal.str s
  | v => v

/-- `ScribeAgent._schedule_event`.  `create_event_tool` is the result of
`TOOL_REGISTRY.get("calendar.create_event")`; the llm and the tool are
explicit.  Returns the result dict, the list of llm prompts issued, and the
list of calendar-tool invocations. -/
def schedule_event
    (create_event_tool : Option (CreateEventArgs → CreateOutcome))
    (llm : String → String) (user_id user_message : String) :
    ScheduleResult × List String × List CreateEventArgs :=
  match create_event_tool with
  | none => (⟨none, none, [], note_unavailable⟩, [], [])
  | some tool =>
    let prompt := extraction_prompt user_message
    let raw := llm prompt
    match parse_event_json raw with
    | none => (⟨none, none, [], note_cant_extract⟩, [prompt], [])
    | some spec =>
      if truthyOpt (aget spec "start_iso") = false then
        (⟨some spec, none, [], note_no_start⟩, [prompt], [])
      else
        let title : Json.JVal :=
          match aget spec "title" with
          | some t => if truthy t then t else Json.JVal.str user_message
          | none => Json.JVal.str user_message
        let sv := (aget spec "start_iso").getD Json.JVal.null
        let end_iso : Json.JVal :=
          if truthyOpt (aget spec "end_iso") = false then default_end sv
          else (aget spec "end_iso").getD Json.JVal.null
        let args : CreateEventArgs :=
          ⟨title, sv, end_iso, "Created by Scribe for user " ++ user_id⟩
        match tool args with
        | CreateOutcome.ok eid =>
          (⟨some [("title", title), ("start_iso", sv), ("end_iso", end_iso)],
            some eid, ["calendar.create_event"], note_created⟩, [prompt], [args])
        | CreateOutcome.raise e =>
          (⟨some [("title", title), ("start_iso", sv), ("end_iso", end_iso)],
            none, [], "Attempted to create the event but hit an error: " ++ e⟩,
           [prompt], [args])

end Scribe

/-- C9: in Scribe's schedule mode (with the calendar tool available):
(1) if the model output yields no parseable object, the result carries the
failure note with `event_id` None, and no calendar-tool invocation occurs;
(2) if the parsed object has no (truthy) start time, likewise — the parsed
object is surfaced but nothing is created;
(3) if a start time exists but the end time is missing, the end defaults to
start + 1 hour (`default_end`: falling back to a zero-length event when the
start string cannot be parsed for the duration arithmetic), both in the
calendar-tool invocation and in the reported `parsed_event`. -/
theorem claim_C9_schedule_failure_and_end_default
    (tc : Scribe.CreateEventArgs → Scribe.CreateOutcome) (llm : String → String)
    (uid msg : String) :
    (Scribe.parse_event_json (llm (Scribe.extraction_prompt msg)) = none →
      Scribe.schedule_event (some tc) llm uid msg
        = (⟨none, none, [], Scribe.note_cant_extract⟩, [Scribe.extraction_prompt msg], []))
    ∧ (∀ spec, Scribe.parse_event_json (llm (Scribe.extraction_prompt msg)) = some spec →
        Scribe.truthyOpt (aget spec "start_iso") = false →
      Scribe.schedule_event (some tc) llm uid msg
        = (⟨some spec, none, [], Scribe.note_no_start⟩, [Scribe.extraction_prompt msg], []))
    ∧ (∀ spec sv, Scribe.parse_event_json (llm (Scribe.extraction_prompt msg)) = some spec →
        aget spec "start_iso" = some sv → Scribe.truthy sv = true →
        Scribe.truthyOpt (aget spec "end_iso") = false →
      ((Scribe.schedule_event (some tc) llm uid msg).2.2.map
          (fun a => a.end_iso)) = [Scribe.default_end sv]
      ∧ ∃ t, (Scribe.schedule_event (some tc) llm uid msg).1.parsed_event
          = some [("title", t), ("start_iso", sv), ("end_iso", Scribe.default_end sv)]) := by
  refine ⟨?_, ?_, ?_⟩
  · intro hparse
    unfold Scribe.schedule_event
    dsimp only
    rw [hparse]
  · intro spec hparse hstart
    unfold Scribe.schedule_event
    dsimp only
    rw [hparse]
    dsimp only
    rw [if_pos hstart]
  · intro spec sv hparse hsv htruthy hend
    unfold Scribe.schedule_event
    dsimp only
    rw [hparse]
    dsimp only
    rw [hsv]
    have hcond : (Scribe.truthyOpt (some sv) = false) = False := by
      simp [Scribe.truthyOpt, htruthy]
    rw [if_neg (by simp [Scribe.truthyOpt, htruthy]), hend]
    rw [if_pos rfl]
    simp only [Option.getD_some]
    cases tc ⟨(match aget spec "title" with
        | some t => if Scribe.truthy t then t else Json.JVal.str msg
        | none => Json.JVal.str msg), sv, Scribe.default_end sv,
        "Created by Scribe for user " ++ uid⟩ with
    | ok eid => exact ⟨rfl, _, rfl⟩
    | raise e => exact ⟨rfl, _, rfl⟩

/-- Witness for C9: the three cases at concrete model outputs — no JSON at
all, a null start time, and a start time with no end (defaulted to +1h). -/
theorem claim_C9_witness :
    Scribe.schedule_event (some (fun _ => Scribe.CreateOutcome.ok "evt-1"))
        (fun _ => "no json here") "u" "schedule dinner"
      = (⟨none, none, [], Scribe.note_cant_extract⟩,
         [Scribe.extraction_prompt "schedule dinner"], [])
    ∧ Scribe.schedule_event (some (fun _ => Scribe.CreateOutcome.ok "evt-1"))
        (fun _ => "\x7b\"title\": \"x\", \"start_iso\": null, \"end_iso\": null\x7d")
        "u" "schedule dinner"
      = (⟨some [("title", Json.JVal.str "x"), ("start_iso", Json.JVal.null),
            ("end_iso", Json.JVal.null)], none, [], Scribe.note_no_start⟩,
         [Scribe.extraction_prompt "schedule dinner"], [])
    ∧ ((Scribe.schedule_event (some (fun _ => Scribe.CreateOutcome.ok "evt-1"))
        (fun _ => "\x7b\"title\": \"Dinner\", \"start_iso\": \"2025-12-12T19:00:00\"\x7d")
        "u" "schedule dinner").2.2.map (fun a => a.end_iso))
      = [Json.JVal.str "2025-12-12T20:00:00"] := by
  refine ⟨?_, ?_, ?_⟩
  · exact (claim_C9_schedule_failure_and_end_default
      (fun _ => Scribe.CreateOutcome.ok "evt-1") (fun _ => "no json here")
      "u" "schedule dinner").1 rfl
  · exact (claim_C9_schedule_failure_and_end_default
      (fun _ => Scribe.CreateOutcome.ok "evt-1")
      (fun _ => "\x7b\"title\": \"x\", \"start_iso\": null, \"end_iso\": null\x7d")
      "u" "schedule dinner").2.1
      [("title", Json.JVal.str "x"), ("start_iso", Json.JVal.null),
       ("end_iso", Json.JVal.null)] rfl rfl
  · exact ((claim_C9_schedule_failure_and_end_default
      (fun _ => Scribe.CreateOutcome.ok "evt-1")
      (fun _ => "\x7b\"title\": \"Dinner\", \"start_iso\": \"2025-12-12T19:00:00\"\x7d")
      "u" "schedule dinner").2.2
      [("title", Json.JVal.str "Dinner"),
       ("start_iso", Json.JVal.str "2025-12-12T19:00:00")]
      (Json.JVal.str "2025-12-12T19:00:00") rfl rfl rfl rfl).1

/-- C10: the shipped `TOOL_REGISTRY` registers no "calendar.create_event"
key (only "calendar.add_event" / "calendar.local_add"), so for every message
classified as schedule, `_schedule_event` takes the tool-unavailable branch:
it returns the canned unavailability note with no parsed event and no event
id, and calls neither the language model nor any calendar tool.  `interp`
maps the registered callables to behaviours; the lookup is `None`, so it is
never consulted. -/
theorem claim_C10_schedule_tool_unavailable
    (interp : Tools.ToolImpl → Scribe.CreateEventArgs → Scribe.CreateOutcome)
    (llm : String → String) (user_id msg : String)
    (hmode : Scribe.classify_mode msg = Scribe.Mode.schedule) :
    aget Tools.TOOL_REGISTRY "calendar.create_event" = none
    ∧ Scribe.schedule_event ((aget Tools.TOOL_REGISTRY "calendar.create_event").map interp)
        llm user_id msg
      = (⟨none, none, [], Scribe.note_unavailable⟩, [], []) :=
  ⟨rfl, rfl⟩

/-- Witness for C10 at a message the Scribe classifier sends to schedule
mode. -/
theorem claim_C10_witness :
    Scribe.classify_mode "schedule dinner with Annie" = Scribe.Mode.schedule
    ∧ Scribe.schedule_event
        ((aget Tools.TOOL_REGISTRY "calendar.create_event").map
          (fun _ => fun _ => Scribe.CreateOutcome.raise "unused"))
        (fun _ => "") "u" "schedule dinner with Annie"
      = (⟨none, none, [], Scribe.note_unavailable⟩, [], []) :=
  ⟨by decide,
   (claim_C10_schedule_tool_unavailable
      (fun _ => fun _ => Scribe.CreateOutcome.raise "unused")
      (fun _ => "") "u" "schedule dinner with Annie" (by decide)).2⟩
